import Mathlib

/-!
# Verification of the HR chatbot response-classification and rendering pipeline

Shallow embedding of the browser-side response pipeline of the `sop_hr_chatbot`
repository: response classification (`backend-module.js`, universal version,
and `core-app.js`), analytics extraction (`core-app.js`,
`visualization-module.js`), the enhanced sortable table renderer
(`EnhancedHRAnalyticsRenderer`), chart-type normalization and compatibility
(`ChartCompatibility` and `visualization-module.js`), the text-pattern chart
hook (`simple_visualization_fixed.js`) and the `askBackend` request guard.

JavaScript values occurring in table rows are modelled by `JVal`
(number / string / null); an absent property (`undefined`) is `Option.none`.
JS numbers are modelled as `Int` (the data handled here are integral counts).
String comparison (`localeCompare`) is modelled as the sign of the
lexicographic comparison by code point; the properties used in proofs
(totality, sign antisymmetry) hold for any locale collation.
-/

/-- Sort direction token (`'asc'` / `'desc'`). -/
inductive Dir where
  | asc
  | desc
deriving DecidableEq, Repr

/-- A JavaScript value as it occurs in backend JSON rows: a number, a string,
or `null`.  `undefined` / an absent key is modelled as `Option.none` at use
sites. -/
inductive JVal where
  | num (n : Int)
  | str (s : String)
  | null
deriving DecidableEq, Repr

/-- JS truthiness of a `JVal` (`0`, `""` and `null` are falsy). -/
def JVal.truthy : JVal → Bool
  | .num n => n != 0
  | .str s => s != ""
  | .null => false

/-- JS truthiness of a possibly-absent value (`undefined` is falsy). -/
def jsTruthy : Option JVal → Bool
  | some v => v.truthy
  | none => false

/-- `String(v)` for a `JVal` (integers print as in JS; `String(null)` is
`"null"`). -/
def JVal.display : JVal → String
  | .num n => toString n
  | .str s => s
  | .null => "null"

/-- JS `+` on two values: numeric addition when both are numbers, otherwise
string concatenation of the displayed values. -/
def jadd : JVal → JVal → JVal
  | .num a, .num b => .num (a + b)
  | a, b => .str (a.display ++ b.display)

/-- JS `x || y` on a possibly-absent value. -/
def jsOr (x : Option JVal) (y : JVal) : JVal :=
  match x with
  | some v => if v.truthy then v else y
  | none => y

/-- A row object: ordered association list from column name to value
(JS object key order). -/
def Row := List (String × JVal)
deriving DecidableEq, Repr

/-- `Object.keys(row)`. -/
def rowKeys (r : Row) : List String := r.map Prod.fst

/-- `row[k]` (`none` models `undefined`). -/
def rowGet (r : Row) (k : String) : Option JVal := List.lookup k r

/-- Lower-case a string character-wise (model of `String.toLowerCase`). -/
def lowerS (s : String) : String := ⟨s.data.map Char.toLower⟩

/-- Whether `pat` occurs as a contiguous sublist of `l`. -/
def subOf (pat : List Char) : List Char → Bool
  | [] => pat.isEmpty
  | c :: t => pat.isPrefixOf (c :: t) || subOf pat t

/-- Model of `String.prototype.includes`. -/
def hasSub (hay pat : String) : Bool := subOf pat.data hay.data

/-- Sign-valued lexicographic comparison of character lists (model of
`localeCompare`: only the sign of the result is ever used). -/
def lcCompare : List Char → List Char → Int
  | [], [] => 0
  | [], _ :: _ => -1
  | _ :: _, [] => 1
  | x :: xs, y :: ys =>
      if x.toNat < y.toNat then -1
      else if y.toNat < x.toNat then 1
      else lcCompare xs ys

/-- `a.localeCompare(b)` on strings. -/
def localeCompareS (a b : String) : Int := lcCompare a.data b.data

/-- Maximal leading run of decimal digits. -/
def takeDigits : List Char → List Char
  | [] => []
  | c :: t => if c.isDigit then c :: takeDigits t else []

/-- Drop a maximal leading run of decimal digits. -/
def dropDigits : List Char → List Char
  | [] => []
  | c :: t => if c.isDigit then dropDigits t else c :: t

/-- Numeric value of a digit list (`parseInt` on a digits-only string). -/
def digitsToNat (l : List Char) : Nat :=
  l.foldl (fun acc c => acc * 10 + (c.toNat - '0'.toNat)) 0

/-- First run of digits embedded in a character list, if any
(the `(\d+)` capture of `str.match(/(\d+)/)`). -/
def firstDigitRun : List Char → Option (List Char)
  | [] => none
  | c :: t => if c.isDigit then some (c :: takeDigits t) else firstDigitRun t

/-- Whitespace characters recognised by the model of `\s`. -/
def isWs (c : Char) : Bool :=
  c = ' ' || c = '\t' || c = '\n' || c = '\r'

/-- Drop a maximal run of whitespace. -/
def dropWs : List Char → List Char
  | [] => []
  | c :: t => if isWs c then dropWs t else c :: t

/-- Group the decimal digits of a natural number with `.` thousands
separators (model of `toLocaleString('id-ID')` on integers). -/
def groupDigitsID (digits : List Char) : List Char :=
  let rec go : List Char → List Char
    | [] => []
    | c :: t =>
        if t.length % 3 = 0 && t.length ≠ 0 then c :: '.' :: go t
        else c :: go t
  go digits

/-- Model of `n.toLocaleString('id-ID')` for an integer. -/
def toLocaleStringID (n : Int) : String :=
  let digits := (toString n.natAbs).data
  let grouped := groupDigitsID digits
  if n < 0 then ⟨'-' :: grouped⟩ else ⟨grouped⟩

/-- The tabular payload object (`{columns, rows, total}`); each field may be
absent. -/
structure DataObj where
  columns : Option (List String) := none
  rows : Option (List Row) := none
  total : Option JVal := none
deriving DecidableEq, Repr

/-- The optional `narrative` object (`{title, summary}`). -/
structure Narrative where
  title : Option String := none
  summary : Option String := none
deriving DecidableEq, Repr

/-- A `{category, value, percent}` fact inside `analysis`. -/
structure KeyFact where
  category : JVal := JVal.null
  value : JVal := JVal.null
  percent : JVal := JVal.null
deriving DecidableEq, Repr

/-- The optional `analysis` object. -/
structure Analysis where
  highest : Option KeyFact := none
  lowest : Option KeyFact := none
  top_concentration_percent : Option JVal := none
deriving DecidableEq, Repr

/-- The raw backend response object for one turn; every field is optional
(`none` = the property is absent or `null`). -/
structure Response where
  error : Option String := none
  authorized : Option Bool := none
  answer : Option String := none
  message_type : Option String := none
  data : Option DataObj := none
  narrative : Option Narrative := none
  analysis : Option Analysis := none
  visualization : Option JVal := none
  visualization_available : Option Bool := none
  conversation_id : Option String := none
  turn_id : Option String := none
  columns : Option (List String) := none
  rows : Option (List Row) := none
  type : Option String := none
  highest : Option JVal := none
  lowest : Option JVal := none
  total : Option JVal := none
  analytics_data : Option DataObj := none
deriving DecidableEq, Repr

/-- Truthiness of an optional string property. -/
def strTruthy : Option String → Bool
  | some s => s != ""
  | none => false

namespace CoreApp

/-- `core-app.js` `isHRAnalyticsResponse`: layered detection of an HR
analytics payload — direct `columns`+`rows` first, then the legacy type
marker, nested `data.columns`+`data.rows`, `analysis`/`narrative` presence,
and ad-hoc `highest`/`lowest`/`total`/`rows` patterns.  Note the JS `if`
conditions test field *presence* (arrays are truthy even when empty) plus the
explicit `rows.length > 0` checks. -/
def isHRAnalyticsResponse (responseData : Option Response) : Bool :=
  match responseData with
  | none => false
  | some rd =>
    if rd.columns.isSome && rd.rows.isSome &&
       ((rd.rows.getD []).length > 0) then true
    else if rd.type = some "hr_analytics" then true
    else if (match rd.data with
             | some d => d.columns.isSome && d.rows.isSome &&
                 ((d.rows.getD []).length > 0)
             | none => false) then true
    else if rd.analysis.isSome || rd.narrative.isSome then true
    else if jsTruthy rd.highest || jsTruthy rd.lowest || jsTruthy rd.total ||
            rd.rows.isSome then true
    else false

/-- `core-app.js` `extractAnalyticsData`: strategy 1 is the *nested*
`responseData.data.columns`/`rows` shape, strategy 2 the direct top-level
`columns`/`rows`, strategy 3 the legacy `analytics_data` field; no row-count
or key-count validation is performed, and `null` (here `none`) is returned
when nothing matches. -/
def extractAnalyticsData (responseData : Option Response) : Option DataObj :=
  match responseData with
  | none => none
  | some rd =>
    match rd.data with
    | some d =>
        if d.columns.isSome && d.rows.isSome then
          some { columns := d.columns, rows := d.rows }
        else if rd.columns.isSome && rd.rows.isSome then
          some { columns := rd.columns, rows := rd.rows }
        else rd.analytics_data
    | none =>
        if rd.columns.isSome && rd.rows.isSome then
          some { columns := rd.columns, rows := rd.rows }
        else rd.analytics_data

end CoreApp

/-- Split a character list on every occurrence of a (non-empty) separator,
first element of the separator given separately (model of
`String.prototype.split`). -/
def splitOnSub (s0 : Char) (srest : List Char) : List Char → List (List Char)
  | [] => [[]]
  | c :: t =>
      if (s0 :: srest).isPrefixOf (c :: t) then
        [] :: splitOnSub s0 srest (t.drop srest.length)
      else
        match splitOnSub s0 srest t with
        | [] => [[c]]
        | seg :: segs => (c :: seg) :: segs
termination_by l => l.length
decreasing_by
  · simp [List.length_drop]; omega
  · simp

/-- Model of `String.prototype.trim`. -/
def trimS (s : String) : String :=
  ⟨(dropWs ((dropWs s.data).reverse)).reverse⟩

namespace EnhancedRenderer

/-!
Embedding of `EnhancedHRAnalyticsRenderer` (the renderer installed as
`window.HRAnalyticsRenderer`): smart sort detection, stable sorting, total
computation and the dashboard card structure.
-/

/-- Column-name test of `detectOptimalSort` priority 1
(`col.toLowerCase().includes('band')`). -/
def isBandName (col : String) : Bool := hasSub (lowerS col) "band"

/-- Column-name test of `detectOptimalSort` priority 2 (grade/level/tier). -/
def isGradeName (col : String) : Bool :=
  hasSub (lowerS col) "grade" || hasSub (lowerS col) "level" ||
  hasSub (lowerS col) "tier"

/-- Column-name test of `detectOptimalSort` priority 3 (`'category'`). -/
def isCategoryName (col : String) : Bool := hasSub (lowerS col) "category"

/-- Column-name test of `detectOptimalSort` priority 4
(department/location/education/pendidikan/lokasi/dept). -/
def isTextName (col : String) : Bool :=
  hasSub (lowerS col) "department" || hasSub (lowerS col) "location" ||
  hasSub (lowerS col) "education" || hasSub (lowerS col) "pendidikan" ||
  hasSub (lowerS col) "lokasi" || hasSub (lowerS col) "dept"

/-- `findValueColumn`: first column whose name contains neither
`category`/`percent`/`persentase` and whose first-row value is a number. -/
def findValueColumn (columns : List String) (firstRow : Row) : Option String :=
  columns.find? fun col =>
    let colLower := lowerS col
    !(hasSub colLower "category") && !(hasSub colLower "percent") &&
    !(hasSub colLower "persentase") &&
    (match rowGet firstRow col with
     | some (JVal.num _) => true
     | _ => false)

/-- `rows.map(row => row[categoryColumn]).filter(Boolean)`. -/
def categoriesOf (rows : List Row) (categoryColumn : String) : List JVal :=
  (rows.map (fun row => rowGet row categoryColumn)).filterMap fun v =>
    match v with
    | some x => if x.truthy then some x else none
    | none => none

/-- `detectNumericOrder`: more than half the category values contain a
digit (`withNumbers.length > categories.length * 0.5`). -/
def detectNumericOrder (categories : List JVal) : Bool :=
  if categories.isEmpty then false
  else
    let withNumbers := categories.filter fun cat => cat.display.data.any Char.isDigit
    2 * withNumbers.length > categories.length

/-- The `{column, direction}` sort configuration object. -/
structure SortCfg where
  column : String
  direction : Dir
deriving DecidableEq, Repr

/-- `detectOptimalSort`: priority chain band → grade/level/tier →
mostly-numeric `category` column → department/location/education text
column → detected numeric value column (descending) → first column
ascending. -/
def detectOptimalSort (rows : List Row) : SortCfg :=
  match rows with
  | [] => ⟨"value", Dir.desc⟩
  | firstRow :: rest =>
    let columns := rowKeys firstRow
    match columns.find? isBandName with
    | some bandColumn => ⟨bandColumn, Dir.asc⟩
    | none =>
      match columns.find? isGradeName with
      | some gradeColumn => ⟨gradeColumn, Dir.asc⟩
      | none =>
        let catStep : Option SortCfg :=
          match columns.find? isCategoryName with
          | some categoryColumn =>
              if detectNumericOrder (categoriesOf (firstRow :: rest) categoryColumn) then
                some ⟨categoryColumn, Dir.asc⟩
              else none
          | none => none
        match catStep with
        | some cfg => cfg
        | none =>
          match columns.find? isTextName with
          | some textColumn => ⟨textColumn, Dir.asc⟩
          | none =>
            match findValueColumn columns firstRow with
            | some valueColumn => ⟨valueColumn, Dir.desc⟩
            | none => ⟨columns.headD "", Dir.asc⟩

/-- `extractNumber`: first run of digits of the string, parsed (`Band 4` →
`4`), or `null`. -/
def extractNumber (s : String) : Option Nat :=
  (firstDigitRun s.data).map digitsToNat

/-- `String(aVal || '').toLowerCase()` as applied to a sort cell. -/
def cellStr (v : Option JVal) : String := lowerS (jsOr v (JVal.str "")).display

/-- The string branch of the `sortTableData` comparator: for
band/grade/level columns the embedded numbers when both extract; otherwise
`localeCompare` of the lower-cased cell strings. -/
def strCompareCells (sortColumn : String) (aV bV : Option JVal) : Int :=
  let aStr := cellStr aV
  let bStr := cellStr bV
  if hasSub (lowerS sortColumn) "band" || hasSub (lowerS sortColumn) "grade" ||
     hasSub (lowerS sortColumn) "level" then
    match extractNumber aStr, extractNumber bStr with
    | some aNum, some bNum => (aNum : Int) - (bNum : Int)
    | _, _ => localeCompareS aStr bStr
  else localeCompareS aStr bStr

/-- The comparator body of `sortTableData`: numeric difference when both
cells are numbers; the string comparison branch otherwise. -/
def sortComparison (sortColumn : String) (a b : Row) : Int :=
  match rowGet a sortColumn, rowGet b sortColumn with
  | some (JVal.num x), some (JVal.num y) => x - y
  | aV, bV => strCompareCells sortColumn aV bV

/-- Directed comparator (`direction === 'asc' ? comparison : -comparison`). -/
def dirCmp (sortColumn : String) (direction : Dir) (a b : Row) : Int :=
  match direction with
  | Dir.asc => sortComparison sortColumn a b
  | Dir.desc => -(sortComparison sortColumn a b)

/-- `a` sorts no later than `b` under the directed comparator. -/
def sortLe (sortColumn : String) (direction : Dir) (a b : Row) : Prop :=
  dirCmp sortColumn direction a b ≤ 0

instance (sortColumn : String) (direction : Dir) :
    DecidableRel (sortLe sortColumn direction) :=
  fun _ _ => Int.decLe _ _

/-- `sortTableData`: stable sort of a copy of the rows by the directed
comparator (`[...rows].sort(...)`; ECMAScript requires `Array.prototype.sort`
to be stable, modelled by insertion sort). -/
def sortTableData (rows : List Row) (sortColumn : String) (direction : Dir) :
    List Row :=
  List.insertionSort (sortLe sortColumn direction) rows

/-- `formatNumber`: locale-formatted for numbers, `String(value)`
otherwise. -/
def formatNumber (v : JVal) : String :=
  match v with
  | JVal.num n => toLocaleStringID n
  | _ => v.display

/-- `total === null || total === undefined || total === 'N/A'`. -/
def totalUnset (t : Option JVal) : Bool :=
  t = none || t = some JVal.null || t = some (JVal.str "N/A")

/-- `rows.reduce((sum, row) => sum + (row[valueColumn] || 0), 0)`. -/
def sumValueColumn (rows : List Row) (valueColumn : String) : JVal :=
  rows.foldl (fun sum row => jadd sum (jsOr (rowGet row valueColumn) (JVal.num 0)))
    (JVal.num 0)

/-- The total computed by `renderSmartSortableDataTable`: the provided
`dataObj.total` when set, otherwise the sum of the detected value column,
otherwise the (unset) provided total unchanged. -/
def computeTableTotal (dataObj : DataObj) : Option JVal :=
  let rows := dataObj.rows.getD []
  if totalUnset dataObj.total then
    match rows with
    | [] => dataObj.total
    | firstRow :: _ =>
      match findValueColumn (rowKeys firstRow) firstRow with
      | some valueColumn => some (sumValueColumn rows valueColumn)
      | none => dataObj.total
  else dataObj.total

/-- The total string rendered in the table footer
(`formatNumber(total || 'N/A')`). -/
def displayTotal (total : Option JVal) : String :=
  formatNumber (jsOr total (JVal.str "N/A"))

/-- `renderAnalysisWithFallback`: whether a narrative card and an analysis
card are synthesised from a `DATA: ... ANALYSIS: ...` text response.
Returns `(hasNarrative, hasAnalysis)`. -/
def renderAnalysisWithFallback (textResponse : String) : Bool × Bool :=
  if hasSub textResponse "DATA:" || hasSub textResponse "ANALYSIS:" then
    let analysisSplit := splitOnSub 'A' "NALYSIS:".data textResponse.data
    let hasAnalysis :=
      match analysisSplit with
      | _ :: seg1 :: _ => trimS ⟨seg1⟩ != ""
      | _ => false
    let hasNarrative :=
      match analysisSplit with
      | seg0 :: _ =>
        if subOf "DATA:".data seg0 then
          let lines := (splitOnSub '\n' [] seg0).map fun l => (⟨l⟩ : String)
          let filtered := lines.filter fun line =>
            trimS line != "" && !hasSub line "DATA:" &&
            !hasSub line "Total Rows:" && !hasSub line "Row "
          match filtered.getLast? with
          | some summaryLine => summaryLine.length > 20
          | none => false
        else false
      | [] => false
    (hasNarrative, hasAnalysis)
  else (false, false)

/-- Which cards the dashboard `render` method produces. -/
structure DashParts where
  extractedNarrativeCard : Bool
  extractedAnalysisCard : Bool
  insightCard : Bool
  factsCard : Bool
  tableCard : Bool
deriving DecidableEq, Repr

/-- The card structure produced by `EnhancedHRAnalyticsRenderer.render`:
text-extracted cards first, then the insight card if `narrative` is present
(and not already extracted), the key-facts card if `analysis` is present,
and the table card if `data.rows` is non-empty. -/
def render (responseData : Response) : DashParts :=
  let fb := renderAnalysisWithFallback (responseData.answer.getD "")
  { extractedNarrativeCard := fb.1
    extractedAnalysisCard := fb.2
    insightCard := responseData.narrative.isSome && !fb.1
    factsCard := responseData.analysis.isSome && !fb.2
    tableCard :=
      match responseData.data with
      | some d => (d.rows.getD []).length > 0
      | none => false }

end EnhancedRenderer

/-- The members a plain object literal inherits from `Object.prototype`:
bracket lookup on a key that is not an own property consults the prototype
chain before yielding `undefined`. -/
def objectProtoKeys : List String :=
  ["constructor", "toString", "toLocaleString", "valueOf", "hasOwnProperty",
   "isPrototypeOf", "propertyIsEnumerable", "__proto__", "__defineGetter__",
   "__defineSetter__", "__lookupGetter__", "__lookupSetter__"]

/-- Result of `obj[key]` on a string-valued object literal: an own string
property, an inherited `Object.prototype` member (a function, or
`Object.prototype` itself for `__proto__` — an object either way, never a
string), or `undefined`. -/
inductive JsLookup where
  | str (s : String)
  | protoObj (name : String)
  | undef
deriving DecidableEq, Repr

/-- `obj[key]` on a string-valued object literal whose prototype is
`Object.prototype`. -/
def bracketLookup (own : List (String × String)) (key : String) : JsLookup :=
  match List.lookup key own with
  | some v => JsLookup.str v
  | none =>
      if key ∈ objectProtoKeys then JsLookup.protoObj key else JsLookup.undef

/-- JS truthiness of a bracket-lookup result (inherited members are
functions or objects, hence truthy). -/
def JsLookup.truthy : JsLookup → Bool
  | .str s => s != ""
  | .protoObj _ => true
  | .undef => false

/-- The lookup result as a JS template literal renders it.  The engine's
source-text rendering of an inherited member is abbreviated here; no proof
relies on more than its non-emptiness. -/
def JsLookup.display : JsLookup → String
  | .str s => s
  | .protoObj name => "function " ++ name ++ "() { [native code] }"
  | .undef => "undefined"

namespace ChartCompatibility

/-!
Embedding of the `ChartCompatibility` module (chart-type normalization,
HR data-shape detection, compatibility validation and the chart-config
transformation).  Chart-config construction keeps the semantically relevant
fields (type, labels, data, dataset label, axis orientation, title); purely
visual options (colors, fonts, tick callbacks) are outside the model.
-/

/-- `CHART_TYPE_MAPPING` (backend token → Chart.js type). -/
def CHART_TYPE_MAPPING : List (String × String) :=
  [("bar", "bar"), ("horizontal_bar", "bar"), ("pie", "pie"),
   ("doughnut", "doughnut"), ("line", "line"), ("polar_area", "polarArea"),
   ("bubble", "bubble"), ("scatter", "scatter"), ("radar", "radar")]

/-- `normalizeChartType`: bracket lookup in `CHART_TYPE_MAPPING` (which
consults `Object.prototype` for non-own keys); a falsy result
(`undefined`) falls back to `'bar'`, while any truthy result — including an
inherited prototype member — is returned as is. -/
def normalizeChartType (backendType : String) : JsLookup :=
  let normalized := bracketLookup CHART_TYPE_MAPPING backendType
  if !normalized.truthy then JsLookup.str "bar" else normalized

/-- `isTypicalHRKeys`: either key matches a known HR key fragment
(case-insensitively). -/
def isTypicalHRKeys (categoryKey valueKey : String) : Bool :=
  let typicalCategoryKeys := ["company_host", "band", "jabatan", "unit_kerja",
    "department", "division", "grade", "position", "location", "region"]
  let typicalValueKeys := ["employee_count", "count", "total", "amount",
    "salary", "headcount", "jumlah", "nilai"]
  typicalCategoryKeys.any (fun key => hasSub (lowerS categoryKey) (lowerS key)) ||
  typicalValueKeys.any (fun key => hasSub (lowerS valueKey) (lowerS key))

/-- The result object of `detectHRDataShape` (fields used downstream). -/
structure ShapeInfo where
  type : String
  valid : Bool
  reason : String := ""
  categoryKey : String := ""
  valueKey : String := ""
  categories : Nat := 0
  isTypicalHR : Bool := false
deriving DecidableEq, Repr

/-- `detectHRDataShape`: empty when no rows; coordinates when the first
row has `x` and `y` keys; HR category→value when the first row has at least
two keys; unknown otherwise. -/
def detectHRDataShape (analyticsData : Option DataObj) : ShapeInfo :=
  match analyticsData with
  | none => { type := "empty", valid := false, reason := "No data rows provided" }
  | some d =>
    match d.rows with
    | none => { type := "empty", valid := false, reason := "No data rows provided" }
    | some [] => { type := "empty", valid := false, reason := "No data rows provided" }
    | some (firstRow :: rest) =>
      let keys := rowKeys firstRow
      if keys.contains "x" && keys.contains "y" then
        { type := "coordinates", valid := true }
      else if keys.length ≥ 2 then
        { type := "hr_category_value", valid := true
          categoryKey := keys.headD "", valueKey := (keys.drop 1).headD ""
          categories := (firstRow :: rest).length
          isTypicalHR := isTypicalHRKeys (keys.headD "") ((keys.drop 1).headD "") }
      else
        { type := "unknown", valid := false
          reason := "Data structure not recognized for HR analytics" }

/-- `HR_CHART_REQUIREMENTS` as the ordered list of (category, type list). -/
def HR_CHART_REQUIREMENTS : List (String × List String) :=
  [("categorical", ["bar", "horizontal_bar", "pie", "doughnut", "polarArea", "radar"]),
   ("sequential", ["line"]),
   ("coordinate", ["bubble", "scatter"])]

/-- `Array.prototype.includes` of a string list applied to a bracket-lookup
result (a non-string inherited member equals no string element). -/
def typesInclude (types : List String) (v : JsLookup) : Bool :=
  match v with
  | JsLookup.str s => types.contains s
  | _ => false

/-- The chart-category search of `validateHRChartCompatibility`: first entry
whose type list contains the raw or the normalized chart type. -/
def findChartCategory (chartType : String) (normalizedType : JsLookup) :
    Option String :=
  (HR_CHART_REQUIREMENTS.find? fun entry =>
    entry.2.contains chartType || typesInclude entry.2 normalizedType).map Prod.fst

/-- The result object of `checkHRCompatibility`. -/
structure CompatCheck where
  isCompatible : Bool
  reason : String := ""
  suggestion : String := ""
deriving DecidableEq, Repr

/-- `checkHRCompatibility`: readability limits for categorical charts
(pie/doughnut beyond 12 categories, vertical `bar` beyond 25), coordinate
charts rejected on HR category→value data, everything else compatible. -/
def checkHRCompatibility (chartCategory : String) (dataShape : ShapeInfo)
    (chartType : String) : CompatCheck :=
  let categoryCount := dataShape.categories
  if chartCategory = "categorical" then
    if (chartType = "pie" || chartType = "doughnut") && categoryCount > 12 then
      { isCompatible := false
        reason := "Too many categories (" ++ toString categoryCount ++ ") for " ++
          chartType ++ " chart readability in HR context"
        suggestion := "Use horizontal bar or regular bar chart instead for " ++
          toString categoryCount ++ " HR categories" }
    else if chartType = "bar" && categoryCount > 25 then
      { isCompatible := false
        reason := "Too many categories (" ++ toString categoryCount ++
          ") for vertical bar chart readability"
        suggestion := "Use horizontal bar chart for better readability with " ++
          toString categoryCount ++ " HR categories" }
    else { isCompatible := true }
  else if chartCategory = "coordinate" then
    if dataShape.type = "hr_category_value" then
      { isCompatible := false
        reason := chartType ++ " chart requires x,y coordinate data. HR categorical data (" ++
          dataShape.categoryKey ++ " → " ++ dataShape.valueKey ++
          ") is not suitable for coordinate charts"
        suggestion := "HR categorical data should use Bar, Pie, or Doughnut charts instead of " ++
          chartType }
    else { isCompatible := true }
  else { isCompatible := true }

/-- The result object of `validateHRChartCompatibility` (fields used by the
claims; the compatible case carries an empty reason). -/
structure CompatResult where
  compatible : Bool
  reason : String := ""
  suggestion : String := ""
  dataShape : ShapeInfo
deriving DecidableEq, Repr

/-- `validateHRChartCompatibility`: invalid shapes are rejected with the
shape's reason, unknown chart categories with an unknown-type reason, and
otherwise `checkHRCompatibility` decides. -/
def validateHRChartCompatibility (chartType : String)
    (analyticsData : Option DataObj) : CompatResult :=
  let normalizedType := normalizeChartType chartType
  let dataShape := detectHRDataShape analyticsData
  if !dataShape.valid then
    { compatible := false
      reason := if dataShape.reason = "" then "Invalid HR data structure" else dataShape.reason
      suggestion := "Ensure HR data has proper category→value structure"
      dataShape := dataShape }
  else
    match findChartCategory chartType normalizedType with
    | none =>
      { compatible := false
        reason := "Unknown chart type: " ++ normalizedType.display
        suggestion := "Use supported HR chart types: bar, pie, doughnut, horizontal_bar"
        dataShape := dataShape }
    | some chartCategory =>
      let compatible := checkHRCompatibility chartCategory dataShape chartType
      if !compatible.isCompatible then
        { compatible := false, reason := compatible.reason
          suggestion := compatible.suggestion, dataShape := dataShape }
      else
        { compatible := true, dataShape := dataShape }

/-- A coordinate data point (`{x, y, r}` with `row.r || row.radius || 5`). -/
structure CoordPoint where
  x : Option JVal
  y : Option JVal
  r : JVal
deriving DecidableEq, Repr

/-- The chart configuration produced by `transformHRAnalyticsData`
(semantically relevant fields). -/
structure ChartConfig where
  type : JsLookup
  labels : List (Option JVal) := []
  dataValues : List (Option JVal) := []
  datasetLabel : String := ""
  indexAxis : String := "x"
  titleText : String := ""
  points : List CoordPoint := []
deriving DecidableEq, Repr

/-- `transformHRAnalyticsData`: validates first and throws
(`Except.error`) with the validation reason on incompatibility; otherwise
builds the config, preserving the semantic category/value keys as labels. -/
def transformHRAnalyticsData (chartType : String)
    (analyticsData : Option DataObj) : Except String ChartConfig :=
  let normalizedType := normalizeChartType chartType
  let compatibility := validateHRChartCompatibility chartType analyticsData
  if !compatibility.compatible then
    Except.error ("HR Chart incompatible: " ++ compatibility.reason)
  else
    let dataShape := compatibility.dataShape
    let rows := (analyticsData.map (·.rows.getD [])).getD []
    if dataShape.type = "hr_category_value" then
      let labels := rows.map fun row => rowGet row dataShape.categoryKey
      let values := rows.map fun row => rowGet row dataShape.valueKey
      let isHorizontal := chartType = "horizontal_bar"
      let finalChartType := if isHorizontal then JsLookup.str "bar" else normalizedType
      Except.ok
        { type := finalChartType
          labels := labels
          dataValues := values
          datasetLabel := dataShape.valueKey
          indexAxis := if isHorizontal then "y" else "x"
          titleText := dataShape.categoryKey ++ " Distribution" }
    else if dataShape.type = "coordinates" then
      Except.ok
        { type := normalizedType
          datasetLabel := "HR Data Points"
          points := rows.map fun row =>
            { x := rowGet row "x", y := rowGet row "y"
              r := jsOr (rowGet row "r") (jsOr (rowGet row "radius") (JVal.num 5)) } }
    else
      Except.error ("Unsupported HR data shape: " ++ dataShape.type)

end ChartCompatibility

namespace VisualizationModule

/-!
Embedding of `FixedVisualizationModule` (visualization-module.js): its own
chart-type normalization, the recommendation-level compatibility switch and
the HR analytics cache processor.
-/

/-- `normalizeChartType` of the visualization module
(`mapping[chartType] || 'bar'`; note: no `polar_area`/`radar` entries, and
the bracket lookup consults `Object.prototype` for non-own keys, whose
truthy inherited members short-circuit the `|| 'bar'` fallback). -/
def normalizeChartType (chartType : String) : JsLookup :=
  let v := bracketLookup
    [("horizontal_bar", "bar"), ("doughnut", "doughnut"), ("pie", "pie"),
     ("bar", "bar"), ("line", "line"), ("bubble", "bubble"),
     ("scatter", "scatter")] chartType
  if !v.truthy then JsLookup.str "bar" else v

/-- `isHRCompatible`: recommendation-level compatibility switch on the
category count of the cached HR rows. -/
def isHRCompatible (chartType : String) (hrRows : List Row) : Bool :=
  let categoryCount := hrRows.length
  if chartType = "pie" || chartType = "doughnut" then categoryCount ≤ 15
  else if chartType = "bar" then categoryCount ≤ 30
  else if chartType = "horizontal_bar" then true
  else if chartType = "bubble" || chartType = "scatter" then false
  else if chartType = "line" then false
  else true

/-- The processed cache entry built by `cacheHRAnalyticsData`. -/
structure ProcessedData where
  columns : List String
  rows : List Row
  categoryKey : String
  valueKey : String
  dataType : String
  source : String
deriving DecidableEq, Repr

/-- `cacheHRAnalyticsData`: strategy 1 explicit `columns`+`rows`, strategy 2
rows-only with columns inferred from the first row's keys (requires a
non-empty row list and at least two first-row keys); otherwise nothing is
cached. -/
def cacheHRAnalyticsData (analyticsData : Option DataObj) :
    Option ProcessedData :=
  match analyticsData with
  | none => none
  | some ad =>
    if ad.columns.isSome && ad.rows.isSome then
      let cols := ad.columns.getD []
      some { columns := cols, rows := ad.rows.getD []
             categoryKey := cols.headD "", valueKey := (cols.drop 1).headD ""
             dataType := "structured", source := "backend_explicit" }
    else
      match ad.rows with
      | some (firstRow :: rest) =>
        let keys := rowKeys firstRow
        if keys.length ≥ 2 then
          some { columns := keys, rows := firstRow :: rest
                 categoryKey := keys.headD "", valueKey := (keys.drop 1).headD ""
                 dataType := "inferred", source := "backend_rows" }
        else none
      | _ => none

end VisualizationModule

namespace SimpleViz

/-!
Embedding of `simple_visualization_fixed.js`: the text-pattern HR data
detector and extractor, and the `addMessage` hook that auto-creates a pie
chart from matching bot text.  The regular-expression matching is modelled
by deterministic scanners equivalent to the patterns' backtracking
semantics.
-/

/-- Case-insensitive literal prefix match (`pat` given lower-case). -/
def ciPrefix (pat : List Char) (l : List Char) : Bool :=
  pat.isPrefixOf (l.map Char.toLower)

/-- The character class `[:\s-]` of the detection pattern. -/
def isClsD (c : Char) : Bool := c = ':' || isWs c || c = '-'

/-- The character class `[:\s]` of the extraction pattern. -/
def isClsE (c : Char) : Bool := c = ':' || isWs c

/-- Whether `/Band\s*(\d+)[:\s-]*(\d+)/i` matches at the current position. -/
def bandAt (l : List Char) : Bool :=
  if ciPrefix "band".data l then
    let r1 := (l.drop 4).dropWhile isWs
    let d := r1.takeWhile Char.isDigit
    if d.length ≥ 2 then true
    else if d.length = 1 then
      match (r1.drop d.length).dropWhile isClsD with
      | c :: _ => c.isDigit
      | [] => false
    else false
  else false

/-- Whether `/Band\s*(\d+)[:\s-]*(\d+)/i` matches anywhere. -/
def bandTest : List Char → Bool
  | [] => false
  | c :: t => bandAt (c :: t) || bandTest t

/-- NFA scan for the `[:\s-]*.*?(\d+)` tail of the second detection pattern
(`a`: still inside the `[:\s-]*` run; `b`: inside `.*?`, which does not
match newlines). -/
def p2scan (a b : Bool) : List Char → Bool
  | [] => false
  | c :: t =>
      if (a || b) && c.isDigit then true
      else p2scan (a && isClsD c) ((a || b) && c ≠ '\n') t

/-- The alternation tokens of `/(GHoPo|IKSQ|KIG|SBA|SBB)[:\s-]*.*?(\d+)/i`. -/
def p2tokens : List (List Char) :=
  ["ghopo".data, "iksq".data, "kig".data, "sba".data, "sbb".data]

/-- Whether the second detection pattern matches at the current position. -/
def p2At (l : List Char) : Bool :=
  p2tokens.any fun tok => ciPrefix tok l && p2scan true true (l.drop tok.length)

/-- Whether the second detection pattern matches anywhere. -/
def p2Test : List Char → Bool
  | [] => false
  | c :: t => p2At (c :: t) || p2Test t

/-- Whether `/(\d+)\s*karyawan/i` matches at the current position. -/
def karyawanAt (l : List Char) : Bool :=
  match l with
  | c :: _ =>
      c.isDigit &&
      ciPrefix "karyawan".data ((l.dropWhile Char.isDigit).dropWhile isWs)
  | [] => false

/-- Whether `/(\d+)\s*karyawan/i` matches anywhere. -/
def karyawanTest : List Char → Bool
  | [] => false
  | c :: t => karyawanAt (c :: t) || karyawanTest t

/-- `hrDataPatterns.some(pattern => pattern.test(responseText))`. -/
def hasHRData (responseText : String) : Bool :=
  bandTest responseText.data || p2Test responseText.data ||
  karyawanTest responseText.data

/-- Leftmost match of `/Band\s*(\d+)[:\s]*(\d+)/i` at the current position:
the two digit groups (with the backtracking split of a single multi-digit
run) and the remainder after the match. -/
def bandMatchAt (l : List Char) : Option (Nat × Nat × List Char) :=
  if ciPrefix "band".data l then
    let r1 := (l.drop 4).dropWhile isWs
    let d := r1.takeWhile Char.isDigit
    if d.length = 0 then none
    else
      let afterD := r1.drop d.length
      let clsRun := afterD.takeWhile isClsE
      let afterCls := afterD.drop clsRun.length
      let e := afterCls.takeWhile Char.isDigit
      if e.length > 0 then
        some (digitsToNat d, digitsToNat e, afterCls.drop e.length)
      else if d.length ≥ 2 then
        some (digitsToNat (d.take (d.length - 1)),
              digitsToNat (d.drop (d.length - 1)), afterD)
      else none
  else none

/-- The global `exec` loop of the band extraction pattern (fuel-bounded scan;
the fuel is instantiated with the text length). -/
def bandExtractLoop (fuel : Nat) : List Char → List (Nat × Nat)
  | [] => []
  | c :: t =>
    match fuel with
    | 0 => []
    | fuel' + 1 =>
      match bandMatchAt (c :: t) with
      | some (g1, g2, rest) => (g1, g2) :: bandExtractLoop fuel' rest
      | none => bandExtractLoop fuel' t

/-- Leftmost match of `/\|\s*(\d+)\s*\|\s*(\d+)/` at the current position. -/
def tableMatchAt (l : List Char) : Option (Nat × Nat × List Char) :=
  match l with
  | '|' :: t =>
    let r1 := t.dropWhile isWs
    let d := r1.takeWhile Char.isDigit
    if d.length = 0 then none
    else
      match (r1.drop d.length).dropWhile isWs with
      | '|' :: t2 =>
        let r3 := t2.dropWhile isWs
        let e := r3.takeWhile Char.isDigit
        if e.length > 0 then some (digitsToNat d, digitsToNat e, r3.drop e.length)
        else none
      | _ => none
  | _ => none

/-- The global `exec` loop of the table extraction pattern. -/
def tableExtractLoop (fuel : Nat) : List Char → List (Nat × Nat)
  | [] => []
  | c :: t =>
    match fuel with
    | 0 => []
    | fuel' + 1 =>
      match tableMatchAt (c :: t) with
      | some (g1, g2, rest) => (g1, g2) :: tableExtractLoop fuel' rest
      | none => tableExtractLoop fuel' t

/-- The dedup-and-filter accumulation over extracted `(band, value)` pairs
(label seen before, or value not positive, is skipped). -/
def collectPairs (acc : List (String × Nat)) : List (Nat × Nat) →
    List (String × Nat)
  | [] => acc
  | (g1, g2) :: rest =>
      let label := "Band " ++ toString g1
      if !(acc.map Prod.fst).contains label && g2 > 0 then
        collectPairs (acc ++ [(label, g2)]) rest
      else collectPairs acc rest

/-- `extractHRDataFromText`: band-pattern pairs first; if none, the
table-pattern pairs. -/
def extractHRDataFromText (text : String) : List (String × Nat) :=
  let data := collectPairs [] (bandExtractLoop text.data.length text.data)
  if data.isEmpty then
    collectPairs [] (tableExtractLoop text.data.length text.data)
  else data

/-- `triggerVisualizationFromResponse`: when the text matches an HR data
pattern and extraction is non-empty, a pie chart with the extracted data is
created in the chat; otherwise nothing happens. -/
def triggerVisualizationFromResponse (responseText : String) :
    Option (List (String × Nat)) :=
  if hasHRData responseText && (extractHRDataFromText responseText).length > 0 then
    some (extractHRDataFromText responseText)
  else none

end SimpleViz

namespace BackendModule

/-!
Embedding of the universal backend module (`backend-module.js`, the
`UNIVERSAL ANALYTICS FIX` version, whose declarations shadow the earlier
thin-adapter version): the single-contract response handler and the
`askBackend` request machine, composed with `CoreApp.addMessage` and —
when installed — the `simple_visualization_fixed.js` hook, which wraps
`addMessage`, drops its fourth (`responseData`) argument and fires the
text-pattern chart trigger on bot messages.
-/

/-- The semantic kind the handler assigns to a response. -/
inductive Kind where
  | error
  | unauthorized
  | analytics
  | text
deriving DecidableEq, Repr

/-- How the bot message itself is rendered. -/
inductive MsgRender where
  | dashboard
  | bubble
deriving DecidableEq, Repr

/-- Truthiness of the `error` field (`if (data.error)`). -/
def errTruthy (e : Option String) : Bool := strTruthy e

/-- The wrapped response object the analytics branch passes to
`addMessage` (canonical schema fields only; no top-level `columns`/`rows`,
`type`, `highest`/`lowest`/`total`, and no `answer`). -/
def mkWrapped (data : Response) : Response :=
  { message_type := data.message_type
    data := data.data
    narrative := data.narrative
    analysis := data.analysis
    visualization_available := data.visualization_available
    conversation_id := data.conversation_id
    turn_id := data.turn_id }

/-- The classification the universal handler performs: error, then
authorization, then the single canonical analytics contract
(`message_type === "analytics_result"` with a present `data` payload),
otherwise text. -/
def classify (data : Response) : Kind :=
  if errTruthy data.error then Kind.error
  else if data.authorized = some false then Kind.unauthorized
  else if data.message_type = some "analytics_result" && data.data.isSome then
    Kind.analytics
  else Kind.text

/-- `CoreApp.addMessage` for a bot message, composed with the optional
simple-visualization hook: the hook drops the `responseData` argument
(so the dashboard path is decided on `null`) and fires the text trigger. -/
def addMessageModel (hookInstalled : Bool) (text : String)
    (responseData : Option Response) : MsgRender × Option (List (String × Nat)) :=
  let rd := if hookInstalled then none else responseData
  let msg :=
    if CoreApp.isHRAnalyticsResponse rd then MsgRender.dashboard
    else MsgRender.bubble
  let auto :=
    if hookInstalled then SimpleViz.triggerVisualizationFromResponse text
    else none
  (msg, auto)

/-- The observable outcome of handling one backend response. -/
structure Outcome where
  kind : Kind
  msgText : String
  msg : MsgRender
  offer : Bool
  autoChart : Option (List (String × Nat))
  legacyViz : Bool
deriving DecidableEq, Repr

/-- The HTML prefix of the error bubble (emoji glyph omitted). -/
def errorPrefix : String := "<strong>Error</strong><br><br>"

/-- The HTML prefix of the access-denied bubble (emoji glyph omitted). -/
def accessPrefix : String := "<strong>Access Denied</strong><br><br>"

/-- `handleBackendResponse` (universal version): error and authorization
first; then the canonical analytics contract decides between the analytics
path (message with wrapped payload, plus the chart offer gated on
`visualization_available === true` and both ids) and the plain text path;
the legacy `visualization` branch runs for non-error outcomes. -/
def handleBackendResponse (hookInstalled : Bool) (data : Response) : Outcome :=
  if errTruthy data.error then
    let t := errorPrefix ++ data.error.getD ""
    let am := addMessageModel hookInstalled t none
    ⟨Kind.error, t, am.1, false, am.2, false⟩
  else if data.authorized = some false then
    let t := accessPrefix ++ (match data.answer with
                              | some s => s
                              | none => "undefined")
    let am := addMessageModel hookInstalled t none
    ⟨Kind.unauthorized, t, am.1, false, am.2, false⟩
  else
    let textResponse := data.answer.getD ""
    let isAnalyticsResult := data.message_type = some "analytics_result"
    if isAnalyticsResult && data.data.isSome then
      let wrapped := mkWrapped data
      let am := addMessageModel hookInstalled textResponse (some wrapped)
      let offer := data.visualization_available = some true &&
        strTruthy data.conversation_id && strTruthy data.turn_id
      ⟨Kind.analytics, textResponse, am.1, offer, am.2, jsTruthy data.visualization⟩
    else
      let am := addMessageModel hookInstalled textResponse none
      ⟨Kind.text, textResponse, am.1, false, am.2, jsTruthy data.visualization⟩

/-- The module-level UI flags relevant to the request guard. -/
structure AppState where
  isWaitingForResponse : Bool
  isCallModeActive : Bool
deriving DecidableEq, Repr

/-- Outcome of the fetch performed by `askBackend` (the 45-second abort
timer surfaces as `timeout`). -/
inductive FetchResult where
  | ok (data : Response)
  | rateLimited
  | httpError (status : Nat)
  | timeout
  | networkError
deriving DecidableEq, Repr

/-- Result of one `askBackend` invocation: the final flag state, whether a
request was actually issued, and the error bubbles it emitted itself. -/
structure AskResult where
  state : AppState
  requestIssued : Bool
  messages : List String
deriving DecidableEq, Repr

/-- The timeout-specific message (`err.name === 'AbortError'`; emoji glyph
omitted). -/
def timeoutMessage : String := "Request timed out. Please try again."

/-- The generic network-failure message (emoji glyph omitted). -/
def connectFailMessage : String := "Failed to connect to server."

/-- The rate-limit message body (emoji glyph omitted). -/
def rateLimitMessage : String :=
  "<strong>Rate Limit Exceeded</strong><br><br>Too many requests. Please wait a moment."

/-- `askBackend`: a no-op while a response is pending **unless call mode is
active**; otherwise it sets the waiting flag, performs the fetch, emits the
outcome-specific message, and the `finally` block always clears the waiting
flag (`setInputState(false)`).  A successful response is routed to
`handleBackendResponse` and emits no error bubble here. -/
def askBackend (s : AppState) (result : FetchResult) : AskResult :=
  if s.isWaitingForResponse && !s.isCallModeActive then
    { state := s, requestIssued := false, messages := [] }
  else
    let finalState : AppState := { s with isWaitingForResponse := false }
    match result with
    | FetchResult.ok _ => { state := finalState, requestIssued := true, messages := [] }
    | FetchResult.rateLimited =>
        { state := finalState, requestIssued := true, messages := [rateLimitMessage] }
    | FetchResult.httpError _ =>
        { state := finalState, requestIssued := true, messages := [connectFailMessage] }
    | FetchResult.timeout =>
        { state := finalState, requestIssued := true, messages := [timeoutMessage] }
    | FetchResult.networkError =>
        { state := finalState, requestIssued := true, messages := [connectFailMessage] }

/-- `sendMessage` / `startFromLanding` guard: whether a user text send
proceeds (`if (!text || isWaitingForResponse) return`). -/
def sendMessageProceeds (chatInputValue : String) (s : AppState) : Bool :=
  !(trimS chatInputValue = "" || s.isWaitingForResponse)

end BackendModule


/-! ### Comparator and stable-sort infrastructure -/

theorem lcCompare_flip (a b : List Char) : lcCompare b a = -lcCompare a b := by
  induction a generalizing b with
  | nil => cases b <;> simp [lcCompare]
  | cons x xs ih =>
    cases b with
    | nil => simp [lcCompare]
    | cons y ys =>
      simp only [lcCompare]
      split_ifs <;> first | omega | exact ih ys

theorem localeCompareS_flip (a b : String) :
    localeCompareS b a = -localeCompareS a b := lcCompare_flip a.data b.data

theorem strCompareCells_flip (col : String) (aV bV : Option JVal) :
    EnhancedRenderer.strCompareCells col bV aV =
      -(EnhancedRenderer.strCompareCells col aV bV) := by
  unfold EnhancedRenderer.strCompareCells
  by_cases hc : (hasSub (lowerS col) "band" || hasSub (lowerS col) "grade" ||
      hasSub (lowerS col) "level") = true
  · simp only [hc, if_true]
    rcases h1 : EnhancedRenderer.extractNumber (EnhancedRenderer.cellStr aV) with _ | n <;>
      rcases h2 : EnhancedRenderer.extractNumber (EnhancedRenderer.cellStr bV) with _ | m <;>
      simp only [h1, h2] <;>
      first
        | omega
        | exact localeCompareS_flip _ _
  · simp only [Bool.not_eq_true] at hc
    simp only [hc, if_false]
    exact localeCompareS_flip _ _

theorem sortComparison_flip (col : String) (a b : Row) :
    EnhancedRenderer.sortComparison col b a =
      -(EnhancedRenderer.sortComparison col a b) := by
  unfold EnhancedRenderer.sortComparison
  rcases ha : rowGet a col with _ | va <;> rcases hb : rowGet b col with _ | vb
  · exact strCompareCells_flip col none none
  · cases vb <;> dsimp only [] <;>
      first
        | omega
        | exact strCompareCells_flip col none _
  · cases va <;> dsimp only [] <;>
      first
        | omega
        | exact strCompareCells_flip col _ none
  · cases va <;> cases vb <;> dsimp only [] <;>
      first
        | omega
        | exact strCompareCells_flip col _ _

theorem dirCmp_flip (col : String) (dir : Dir) (a b : Row) :
    EnhancedRenderer.dirCmp col dir b a = -(EnhancedRenderer.dirCmp col dir a b) := by
  cases dir <;> simp only [EnhancedRenderer.dirCmp, sortComparison_flip col a b, neg_neg]

theorem sortLe_total (col : String) (dir : Dir) (a b : Row) :
    EnhancedRenderer.sortLe col dir a b ∨ EnhancedRenderer.sortLe col dir b a := by
  unfold EnhancedRenderer.sortLe
  rw [dirCmp_flip col dir a b]
  omega

theorem chain'_orderedInsert {α : Type} {r : α → α → Prop} [DecidableRel r]
    (tot : ∀ a b, r a b ∨ r b a) (a : α) (l : List α) (h : l.Chain' r) :
    (List.orderedInsert r a l).Chain' r := by
  induction l with
  | nil => simp [List.orderedInsert]
  | cons b t ih =>
    by_cases hab : r a b
    · simpa [List.orderedInsert, hab] using List.chain'_cons.mpr ⟨hab, h⟩
    · have hba : r b a := (tot a b).resolve_left hab
      simp only [List.orderedInsert, if_neg hab]
      rw [List.chain'_cons']
      refine ⟨?_, ih (List.Chain'.tail h)⟩
      intro y hy
      cases t with
      | nil =>
        simp [List.orderedInsert] at hy
        subst hy
        exact hba
      | cons c t' =>
        by_cases hac : r a c
        · simp [List.orderedInsert, if_pos hac] at hy
          subst hy
          exact hba
        · simp [List.orderedInsert, if_neg hac] at hy
          subst hy
          exact (List.chain'_cons.mp h).1

theorem chain'_insertionSort {α : Type} {r : α → α → Prop} [DecidableRel r]
    (tot : ∀ a b, r a b ∨ r b a) (l : List α) :
    (List.insertionSort r l).Chain' r := by
  induction l with
  | nil => simp [List.insertionSort]
  | cons a t ih => exact chain'_orderedInsert tot a _ ih

theorem insertionSort_eq_of_chain' {α : Type} {r : α → α → Prop} [DecidableRel r]
    {l : List α} (h : l.Chain' r) : List.insertionSort r l = l := by
  induction l with
  | nil => rfl
  | cons a t ih =>
    have ht : List.insertionSort r t = t := ih (List.Chain'.tail h)
    simp only [List.insertionSort, ht]
    cases t with
    | nil => rfl
    | cons b t' =>
      have hab : r a b := (List.chain'_cons.mp h).1
      simp [List.orderedInsert, if_pos hab]

/-! ### Helper lemmas for string nonemptiness and association lookup -/

theorem append_ne_empty (a b : String) (h : a ≠ "") : a ++ b ≠ "" := by
  intro hc
  apply h
  have hd : a.data ++ b.data = ([] : List Char) := by
    have h2 := congrArg String.data hc
    rwa [String.data_append] at h2
  exact String.ext (List.append_eq_nil.mp hd).1

theorem append_ne_empty_right (a b : String) (h : b ≠ "") : a ++ b ≠ "" := by
  intro hc
  apply h
  have hd : a.data ++ b.data = ([] : List Char) := by
    have h2 := congrArg String.data hc
    rwa [String.data_append] at h2
  exact String.ext (List.append_eq_nil.mp hd).2

theorem lookup_val_mem {l : List (String × String)} {t v : String}
    (h : List.lookup t l = some v) : v ∈ l.map Prod.snd := by
  induction l with
  | nil => simp [List.lookup] at h
  | cons p es ih =>
    rw [List.lookup] at h
    by_cases he : (t == p.1) = true
    · simp [he] at h
      simp [← h]
    · simp [he] at h
      simp [ih h]

theorem lookup_eq_none_of_not_mem {l : List (String × String)} {t : String}
    (h : t ∉ l.map Prod.fst) : List.lookup t l = none := by
  induction l with
  | nil => rfl
  | cons p es ih =>
    rw [List.lookup]
    simp only [List.map_cons, List.mem_cons] at h
    push_neg at h
    have hne : (t == p.1) = false := by simpa using h.1
    simp only [hne]
    exact ih h.2

/-- The Chart.js type vocabulary (the values normalization may produce). -/
def chartJsTypes : List String :=
  ["bar", "pie", "doughnut", "line", "polarArea", "bubble", "scatter", "radar"]

/-- C10 counterexample: chart-type normalization is NOT total into the
Chart.js enum and `'bar'` is NOT a universal safe default — the JS bracket
lookup on the mapping object literal consults `Object.prototype` for
non-own keys, so input tokens naming inherited members (`toString`,
`constructor`, `__proto__`, …) yield a truthy inherited function/object
that short-circuits the falsy-fallback and is returned as is: neither a
Chart.js enum member nor `'bar'`, in both implementations. -/
theorem c10_normalize_chart_type_counterexample :
    ChartCompatibility.normalizeChartType "toString" =
      JsLookup.protoObj "toString" ∧
    JsLookup.protoObj "toString" ∉ chartJsTypes.map JsLookup.str ∧
    JsLookup.protoObj "toString" ≠ JsLookup.str "bar" ∧
    VisualizationModule.normalizeChartType "constructor" =
      JsLookup.protoObj "constructor" ∧
    JsLookup.protoObj "constructor" ∉ chartJsTypes.map JsLookup.str ∧
    JsLookup.protoObj "constructor" ≠ JsLookup.str "bar" := by decide

/-- C10 amended: for every input token that does not name an inherited
`Object.prototype` member, both `normalizeChartType` implementations return
a string member of the Chart.js type enum, and every such token outside the
respective mapping key sets is sent to the safe default `"bar"` (never an
exception or `undefined`); tokens that do name an inherited
`Object.prototype` member escape the fallback and are returned as the
inherited member itself in both implementations. -/
theorem c10_normalize_chart_type_amended :
    (∀ t : String, t ∉ objectProtoKeys →
        ChartCompatibility.normalizeChartType t ∈ chartJsTypes.map JsLookup.str ∧
        VisualizationModule.normalizeChartType t ∈ chartJsTypes.map JsLookup.str) ∧
    (∀ t : String,
        t ∉ ["bar", "horizontal_bar", "pie", "doughnut", "line", "polar_area",
             "bubble", "scatter", "radar"] → t ∉ objectProtoKeys →
        ChartCompatibility.normalizeChartType t = JsLookup.str "bar") ∧
    (∀ t : String,
        t ∉ ["horizontal_bar", "doughnut", "pie", "bar", "line", "bubble",
             "scatter"] → t ∉ objectProtoKeys →
        VisualizationModule.normalizeChartType t = JsLookup.str "bar") ∧
    (∀ t ∈ objectProtoKeys,
        ChartCompatibility.normalizeChartType t = JsLookup.protoObj t ∧
        VisualizationModule.normalizeChartType t = JsLookup.protoObj t) := by
  refine ⟨fun t ht => ⟨?_, ?_⟩, fun t ht hp => ?_, fun t ht hp => ?_,
    fun t ht => ?_⟩
  · unfold ChartCompatibility.normalizeChartType bracketLookup
    rcases hl : List.lookup t ChartCompatibility.CHART_TYPE_MAPPING with _ | v
    · rw [if_neg ht]
      decide
    · have hm := lookup_val_mem hl
      dsimp only []
      fin_cases hm <;> decide
  · unfold VisualizationModule.normalizeChartType bracketLookup
    rcases hl : List.lookup t
        [("horizontal_bar", "bar"), ("doughnut", "doughnut"), ("pie", "pie"),
         ("bar", "bar"), ("line", "line"), ("bubble", "bubble"),
         ("scatter", "scatter")] with _ | v
    · rw [if_neg ht]
      decide
    · have hm := lookup_val_mem hl
      dsimp only []
      fin_cases hm <;> decide
  · unfold ChartCompatibility.normalizeChartType bracketLookup
    rw [lookup_eq_none_of_not_mem
      (by simpa [ChartCompatibility.CHART_TYPE_MAPPING] using ht), if_neg hp]
    decide
  · unfold VisualizationModule.normalizeChartType bracketLookup
    rw [lookup_eq_none_of_not_mem (by simpa using ht), if_neg hp]
    decide
  · fin_cases ht <;> exact ⟨by decide, by decide⟩

/-- Witness for the amended C10 at concrete tokens: an out-of-vocabulary
token and the visualization module's missing `polar_area` entry normalize
to `bar`, an own key lands in the enum, and a prototype member name is
returned as the inherited member. -/
theorem c10_normalize_chart_type_amended_witness :
    ChartCompatibility.normalizeChartType "mystery_type" = JsLookup.str "bar" ∧
    VisualizationModule.normalizeChartType "polar_area" = JsLookup.str "bar" ∧
    ChartCompatibility.normalizeChartType "radar" ∈ chartJsTypes.map JsLookup.str ∧
    VisualizationModule.normalizeChartType "hasOwnProperty" =
      JsLookup.protoObj "hasOwnProperty" :=
  ⟨c10_normalize_chart_type_amended.2.1 "mystery_type" (by decide) (by decide),
   c10_normalize_chart_type_amended.2.2.1 "polar_area" (by decide) (by decide),
   (c10_normalize_chart_type_amended.1 "radar" (by decide)).1,
   (c10_normalize_chart_type_amended.2.2.2 "hasOwnProperty" (by decide)).2⟩

/-! ### C7: validate / build failure symmetry -/

theorem checkHR_reason_ne_empty (chartCategory : String)
    (dataShape : ChartCompatibility.ShapeInfo) (chartType : String)
    (h : (ChartCompatibility.checkHRCompatibility chartCategory dataShape
      chartType).isCompatible = false) :
    (ChartCompatibility.checkHRCompatibility chartCategory dataShape
      chartType).reason ≠ "" := by
  unfold ChartCompatibility.checkHRCompatibility at h ⊢
  by_cases hcat : chartCategory = "categorical"
  · simp only [hcat, if_true, if_pos] at h ⊢
    by_cases h1 : ((decide (chartType = "pie") || decide (chartType = "doughnut")) &&
        decide (dataShape.categories > 12)) = true
    · rw [if_pos h1]
      exact append_ne_empty_right _ _ (by decide)
    · rw [if_neg h1] at h ⊢
      by_cases h2 : (decide (chartType = "bar") &&
          decide (dataShape.categories > 25)) = true
      · rw [if_pos h2]
        exact append_ne_empty_right _ _ (by decide)
      · rw [if_neg h2] at h
        simp at h
  · rw [if_neg hcat] at h ⊢
    by_cases hco : chartCategory = "coordinate"
    · rw [if_pos hco] at h ⊢
      by_cases hsh : dataShape.type = "hr_category_value"
      · rw [if_pos hsh]
        exact append_ne_empty_right _ _ (by decide)
      · rw [if_neg hsh] at h
        simp at h
    · rw [if_neg hco] at h
      simp at h

theorem validate_reason_ne_empty (chartType : String)
    (analyticsData : Option DataObj)
    (h : (ChartCompatibility.validateHRChartCompatibility chartType
      analyticsData).compatible = false) :
    (ChartCompatibility.validateHRChartCompatibility chartType
      analyticsData).reason ≠ "" := by
  unfold ChartCompatibility.validateHRChartCompatibility at h ⊢
  by_cases hval : (ChartCompatibility.detectHRDataShape analyticsData).valid
  · simp only [hval, Bool.not_true, if_false] at h ⊢
    rcases hcat : ChartCompatibility.findChartCategory chartType
        (ChartCompatibility.normalizeChartType chartType) with _ | cat
    · simp only [hcat]
      exact append_ne_empty _ _ (by decide)
    · simp only [hcat] at h ⊢
      by_cases hchk : (ChartCompatibility.checkHRCompatibility cat
          (ChartCompatibility.detectHRDataShape analyticsData) chartType).isCompatible
      · simp [hchk] at h
      · simp only [Bool.not_eq_true] at hchk
        simp only [hchk, Bool.not_false, if_true]
        exact checkHR_reason_ne_empty _ _ _ hchk
  · simp only [Bool.not_eq_true] at hval
    simp only [hval, Bool.not_false, if_true]
    split_ifs with hr
    · decide
    · exact hr

/-- C7: for every chart type and table on which `validate` reports
incompatibility, the reason is a non-empty string and `build`
(`transformHRAnalyticsData`) fails with an error that carries that same
reason text verbatim (never silently downgrading to another chart type). -/
theorem c7_validate_build_reason_symmetry (chartType : String)
    (analyticsData : Option DataObj)
    (h : (ChartCompatibility.validateHRChartCompatibility chartType
      analyticsData).compatible = false) :
    (ChartCompatibility.validateHRChartCompatibility chartType
      analyticsData).reason ≠ "" ∧
    ChartCompatibility.transformHRAnalyticsData chartType analyticsData =
      Except.error ("HR Chart incompatible: " ++
        (ChartCompatibility.validateHRChartCompatibility chartType
          analyticsData).reason) := by
  refine ⟨validate_reason_ne_empty chartType analyticsData h, ?_⟩
  unfold ChartCompatibility.transformHRAnalyticsData
  simp only [h, Bool.not_false, if_true]

/-- Witness for C7: a 40-category pie request is rejected by `validate`, and
`build` fails with exactly the same reason text. -/
theorem c7_validate_build_reason_symmetry_witness :
    (ChartCompatibility.validateHRChartCompatibility "pie"
      (some { columns := some ["category", "count"],
              rows := some ((List.range 40).map fun i =>
                [("category", JVal.str ("C" ++ toString i)),
                 ("count", JVal.num 1)]) })).compatible = false ∧
    (ChartCompatibility.validateHRChartCompatibility "pie"
      (some { columns := some ["category", "count"],
              rows := some ((List.range 40).map fun i =>
                [("category", JVal.str ("C" ++ toString i)),
                 ("count", JVal.num 1)]) })).reason ≠ "" ∧
    ChartCompatibility.transformHRAnalyticsData "pie"
      (some { columns := some ["category", "count"],
              rows := some ((List.range 40).map fun i =>
                [("category", JVal.str ("C" ++ toString i)),
                 ("count", JVal.num 1)]) }) =
      Except.error ("HR Chart incompatible: " ++
        (ChartCompatibility.validateHRChartCompatibility "pie"
          (some { columns := some ["category", "count"],
                  rows := some ((List.range 40).map fun i =>
                    [("category", JVal.str ("C" ++ toString i)),
                     ("count", JVal.num 1)]) })).reason) := by
  have h := c7_validate_build_reason_symmetry "pie"
    (some { columns := some ["category", "count"],
            rows := some ((List.range 40).map fun i =>
              [("category", JVal.str ("C" ++ toString i)),
               ("count", JVal.num 1)]) }) (by decide)
  exact ⟨by decide, h.1, h.2⟩

/-! ### C3: chart compatibility limits -/

/-- A canonical categorical table with `n` single-count categories. -/
def catTable (n : Nat) : DataObj :=
  { columns := some ["category", "count"]
    rows := some ((List.range n).map fun i =>
      [("category", JVal.str ("C" ++ toString i)), ("count", JVal.num 1)]) }

theorem detect_shape_categorical (d : DataObj) (firstRow : Row) (rest : List Row)
    (hrows : d.rows = some (firstRow :: rest))
    (hxy : ¬((rowKeys firstRow).contains "x" && (rowKeys firstRow).contains "y") = true)
    (hk : (rowKeys firstRow).length ≥ 2) :
    ChartCompatibility.detectHRDataShape (some d) =
      { type := "hr_category_value", valid := true
        categoryKey := (rowKeys firstRow).headD ""
        valueKey := ((rowKeys firstRow).drop 1).headD ""
        categories := (firstRow :: rest).length
        isTypicalHR := ChartCompatibility.isTypicalHRKeys
          ((rowKeys firstRow).headD "") (((rowKeys firstRow).drop 1).headD "") } := by
  simp only [ChartCompatibility.detectHRDataShape, hrows]
  rw [if_neg hxy, if_pos hk]

theorem validate_compatible_eval (ct cat : String) (ad : Option DataObj)
    (sh : ChartCompatibility.ShapeInfo)
    (hsh : ChartCompatibility.detectHRDataShape ad = sh) (hv : sh.valid = true)
    (hcat : ChartCompatibility.findChartCategory ct
      (ChartCompatibility.normalizeChartType ct) = some cat) :
    (ChartCompatibility.validateHRChartCompatibility ct ad).compatible =
      (ChartCompatibility.checkHRCompatibility cat sh ct).isCompatible := by
  simp only [ChartCompatibility.validateHRChartCompatibility, hsh, hv, hcat]
  by_cases hchk : (ChartCompatibility.checkHRCompatibility cat sh ct).isCompatible
  · simp [hchk]
  · simp only [Bool.not_eq_true] at hchk
    simp [hchk]

theorem checkHR_pie_eval (sh : ChartCompatibility.ShapeInfo) :
    (ChartCompatibility.checkHRCompatibility "categorical" sh "pie").isCompatible =
      decide (sh.categories ≤ 12) := by
  simp only [ChartCompatibility.checkHRCompatibility]
  by_cases hcnt : sh.categories > 12
  · simp [hcnt, Nat.not_le.mpr hcnt]
  · simp [hcnt, Nat.le_of_not_lt hcnt]

theorem checkHR_doughnut_eval (sh : ChartCompatibility.ShapeInfo) :
    (ChartCompatibility.checkHRCompatibility "categorical" sh "doughnut").isCompatible =
      decide (sh.categories ≤ 12) := by
  simp only [ChartCompatibility.checkHRCompatibility]
  by_cases hcnt : sh.categories > 12
  · simp [hcnt, Nat.not_le.mpr hcnt]
  · simp [hcnt, Nat.le_of_not_lt hcnt]

theorem checkHR_bar_eval (sh : ChartCompatibility.ShapeInfo) :
    (ChartCompatibility.checkHRCompatibility "categorical" sh "bar").isCompatible =
      decide (sh.categories ≤ 25) := by
  simp only [ChartCompatibility.checkHRCompatibility]
  by_cases hcnt : sh.categories > 25
  · simp [hcnt, Nat.not_le.mpr hcnt]
  · simp [hcnt, Nat.le_of_not_lt hcnt]

theorem checkHR_categorical_free_eval (ct : String)
    (sh : ChartCompatibility.ShapeInfo)
    (hp : ct ≠ "pie") (hd : ct ≠ "doughnut") (hb : ct ≠ "bar") :
    (ChartCompatibility.checkHRCompatibility "categorical" sh ct).isCompatible =
      true := by
  simp [ChartCompatibility.checkHRCompatibility, hp, hd, hb]

theorem checkHR_sequential_eval (ct : String) (sh : ChartCompatibility.ShapeInfo) :
    (ChartCompatibility.checkHRCompatibility "sequential" sh ct).isCompatible =
      true := by
  simp [ChartCompatibility.checkHRCompatibility]

theorem checkHR_coordinate_eval (ct : String) (sh : ChartCompatibility.ShapeInfo)
    (hty : sh.type = "hr_category_value") :
    (ChartCompatibility.checkHRCompatibility "coordinate" sh ct).isCompatible =
      false := by
  simp [ChartCompatibility.checkHRCompatibility, hty]

/-- C3 (counterexample): the claim's thresholds are wrong for
`validateHRChartCompatibility` — a 13-category table is already rejected for
`pie` (the code's ceiling is 12, not 15), and a 40-category table is
accepted for `radar` (the claim demands rejection beyond 15). -/
theorem c3_chart_compatibility_limits_counterexample :
    (ChartCompatibility.validateHRChartCompatibility "pie"
      (some (catTable 13))).compatible = false ∧
    (13 : Nat) ≤ 15 ∧
    (ChartCompatibility.validateHRChartCompatibility "radar"
      (some (catTable 40))).compatible = true ∧
    (15 : Nat) < 40 := by
  refine ⟨by decide, by decide, by decide, by decide⟩

/-- C3 (amended): for every categorical (category→numeric-value shaped)
table, `validateHRChartCompatibility` reports `pie`/`doughnut` compatible
exactly up to 12 categories and vertical `bar` up to 25, keeps
`horizontal_bar`, `polar_area`, `radar` and `line` always compatible, and
always rejects `bubble`/`scatter`; the recommendation helper
`isHRCompatible` uses ceilings 15 (`pie`/`doughnut`) and 30 (`bar`), keeps
`horizontal_bar` always and `bubble`/`scatter`/`line` never compatible, and
treats `radar`/`polar_area` as always compatible.  In particular the
40-category table is rejected for `pie` with a reason naming the category
count, and accepted for `horizontal_bar`. -/
theorem c3_chart_compatibility_limits_amended :
    (∀ (d : DataObj) (firstRow : Row) (rest : List Row),
      d.rows = some (firstRow :: rest) →
      ¬((rowKeys firstRow).contains "x" && (rowKeys firstRow).contains "y") = true →
      (rowKeys firstRow).length ≥ 2 →
      (ChartCompatibility.validateHRChartCompatibility "pie" (some d)).compatible
          = decide ((firstRow :: rest).length ≤ 12) ∧
        (ChartCompatibility.validateHRChartCompatibility "doughnut" (some d)).compatible
          = decide ((firstRow :: rest).length ≤ 12) ∧
        (ChartCompatibility.validateHRChartCompatibility "bar" (some d)).compatible
          = decide ((firstRow :: rest).length ≤ 25) ∧
        (ChartCompatibility.validateHRChartCompatibility "horizontal_bar" (some d)).compatible
          = true ∧
        (ChartCompatibility.validateHRChartCompatibility "polar_area" (some d)).compatible
          = true ∧
        (ChartCompatibility.validateHRChartCompatibility "radar" (some d)).compatible
          = true ∧
        (ChartCompatibility.validateHRChartCompatibility "line" (some d)).compatible
          = true ∧
        (ChartCompatibility.validateHRChartCompatibility "bubble" (some d)).compatible
          = false ∧
        (ChartCompatibility.validateHRChartCompatibility "scatter" (some d)).compatible
          = false ∧
        VisualizationModule.isHRCompatible "pie" (firstRow :: rest)
          = decide ((firstRow :: rest).length ≤ 15) ∧
        VisualizationModule.isHRCompatible "doughnut" (firstRow :: rest)
          = decide ((firstRow :: rest).length ≤ 15) ∧
        VisualizationModule.isHRCompatible "bar" (firstRow :: rest)
          = decide ((firstRow :: rest).length ≤ 30) ∧
        VisualizationModule.isHRCompatible "horizontal_bar" (firstRow :: rest) = true ∧
        VisualizationModule.isHRCompatible "bubble" (firstRow :: rest) = false ∧
        VisualizationModule.isHRCompatible "scatter" (firstRow :: rest) = false ∧
        VisualizationModule.isHRCompatible "line" (firstRow :: rest) = false ∧
        VisualizationModule.isHRCompatible "radar" (firstRow :: rest) = true ∧
        VisualizationModule.isHRCompatible "polar_area" (firstRow :: rest) = true) ∧
    ((ChartCompatibility.validateHRChartCompatibility "pie"
        (some (catTable 40))).compatible = false ∧
      (ChartCompatibility.validateHRChartCompatibility "pie"
        (some (catTable 40))).reason =
        "Too many categories (40) for pie chart readability in HR context" ∧
      (ChartCompatibility.validateHRChartCompatibility "horizontal_bar"
        (some (catTable 40))).compatible = true) := by
  constructor
  · intro d firstRow rest hrows hxy hk
    have hsh := detect_shape_categorical d firstRow rest hrows hxy hk
    refine ⟨?_, ?_, ?_, ?_, ?_, ?_, ?_, ?_, ?_, ?_, ?_, ?_, ?_, ?_, ?_, ?_, ?_, ?_⟩
    · rw [validate_compatible_eval "pie" "categorical" _ _ hsh rfl (by decide),
        checkHR_pie_eval]
    · rw [validate_compatible_eval "doughnut" "categorical" _ _ hsh rfl (by decide),
        checkHR_doughnut_eval]
    · rw [validate_compatible_eval "bar" "categorical" _ _ hsh rfl (by decide),
        checkHR_bar_eval]
    · rw [validate_compatible_eval "horizontal_bar" "categorical" _ _ hsh rfl (by decide),
        checkHR_categorical_free_eval _ _ (by decide) (by decide) (by decide)]
    · rw [validate_compatible_eval "polar_area" "categorical" _ _ hsh rfl (by decide),
        checkHR_categorical_free_eval _ _ (by decide) (by decide) (by decide)]
    · rw [validate_compatible_eval "radar" "categorical" _ _ hsh rfl (by decide),
        checkHR_categorical_free_eval _ _ (by decide) (by decide) (by decide)]
    · rw [validate_compatible_eval "line" "sequential" _ _ hsh rfl (by decide),
        checkHR_sequential_eval]
    · rw [validate_compatible_eval "bubble" "coordinate" _ _ hsh rfl (by decide),
        checkHR_coordinate_eval _ _ rfl]
    · rw [validate_compatible_eval "scatter" "coordinate" _ _ hsh rfl (by decide),
        checkHR_coordinate_eval _ _ rfl]
    · simp [VisualizationModule.isHRCompatible]
    · simp [VisualizationModule.isHRCompatible]
    · simp [VisualizationModule.isHRCompatible]
    · simp [VisualizationModule.isHRCompatible]
    · simp [VisualizationModule.isHRCompatible]
    · simp [VisualizationModule.isHRCompatible]
    · simp [VisualizationModule.isHRCompatible]
    · simp [VisualizationModule.isHRCompatible]
    · simp [VisualizationModule.isHRCompatible]
  · refine ⟨by decide, by decide, by decide⟩

/-- Witness for the amended C3 at a concrete three-row categorical table. -/
theorem c3_chart_compatibility_limits_amended_witness :
    (ChartCompatibility.validateHRChartCompatibility "pie"
      (some (catTable 3))).compatible = decide ((3 : Nat) ≤ 12) := by
  have h := (c3_chart_compatibility_limits_amended.1 (catTable 3)
    [("category", JVal.str "C0"), ("count", JVal.num 1)]
    [[("category", JVal.str "C1"), ("count", JVal.num 1)],
     [("category", JVal.str "C2"), ("count", JVal.num 1)]]
    (by decide) (by decide) (by decide)).1
  simpa using h

/-! ### C8: sort round-trip and idempotence -/

/-- C8: for every table and column, `sortTableData` permutes the rows (so
sorting ascending and then descending restores the original row multiset),
and applying the same sort twice yields the same order as applying it once
(the directed comparator is total, so a stable sort leaves its own output
unchanged). -/
theorem c8_sort_round_trip_idempotent :
    (∀ (rows : List Row) (col : String) (dir : Dir),
      (EnhancedRenderer.sortTableData rows col dir).Perm rows) ∧
    (∀ (rows : List Row) (col : String),
      (EnhancedRenderer.sortTableData
        (EnhancedRenderer.sortTableData rows col Dir.asc) col Dir.desc).Perm rows) ∧
    (∀ (rows : List Row) (col : String) (dir : Dir),
      EnhancedRenderer.sortTableData
        (EnhancedRenderer.sortTableData rows col dir) col dir =
        EnhancedRenderer.sortTableData rows col dir) := by
  refine ⟨?_, ?_, ?_⟩
  · intro rows col dir
    exact List.perm_insertionSort _ rows
  · intro rows col
    exact (List.perm_insertionSort _ _).trans (List.perm_insertionSort _ rows)
  · intro rows col dir
    exact insertionSort_eq_of_chain' (chain'_insertionSort (sortLe_total col dir) _)

/-! ### C4: default sort-order inference -/

/-- Scenario A rows: `{band, count}` with bands 3, 1, 2. -/
def bandTableRows : List Row :=
  [[("band", JVal.str "Band 3"), ("count", JVal.num 10)],
   [("band", JVal.str "Band 1"), ("count", JVal.num 5)],
   [("band", JVal.str "Band 2"), ("count", JVal.num 7)]]

/-- Scenario A data object (no provided total). -/
def bandTable : DataObj :=
  { columns := some ["band", "count"], rows := some bandTableRows }

/-- C4: the default sort inference follows the stated priority chain — a
column whose name contains `band` sorts ascending (by the first embedded
digit run when both cells carry digits, so `Band 10` sorts after `Band 2`),
then grade/level/tier ascending, then a mostly-numeric `category` column
ascending, then a department/location/education text column ascending, then
the detected numeric value column descending, with the first column
ascending as the ultimate fallback; Scenario A sorts to Band 1, Band 2,
Band 3 with total 22. -/
theorem c4_default_sort_inference :
    (∀ (firstRow : Row) (rest : List Row) (bc : String),
      (rowKeys firstRow).find? EnhancedRenderer.isBandName = some bc →
      EnhancedRenderer.detectOptimalSort (firstRow :: rest) = ⟨bc, Dir.asc⟩) ∧
    (∀ (firstRow : Row) (rest : List Row) (gc : String),
      (rowKeys firstRow).find? EnhancedRenderer.isBandName = none →
      (rowKeys firstRow).find? EnhancedRenderer.isGradeName = some gc →
      EnhancedRenderer.detectOptimalSort (firstRow :: rest) = ⟨gc, Dir.asc⟩) ∧
    (∀ (firstRow : Row) (rest : List Row) (cc : String),
      (rowKeys firstRow).find? EnhancedRenderer.isBandName = none →
      (rowKeys firstRow).find? EnhancedRenderer.isGradeName = none →
      (rowKeys firstRow).find? EnhancedRenderer.isCategoryName = some cc →
      EnhancedRenderer.detectNumericOrder
        (EnhancedRenderer.categoriesOf (firstRow :: rest) cc) = true →
      EnhancedRenderer.detectOptimalSort (firstRow :: rest) = ⟨cc, Dir.asc⟩) ∧
    (∀ (firstRow : Row) (rest : List Row) (tc : String),
      (rowKeys firstRow).find? EnhancedRenderer.isBandName = none →
      (rowKeys firstRow).find? EnhancedRenderer.isGradeName = none →
      (∀ cc : String, (rowKeys firstRow).find? EnhancedRenderer.isCategoryName = some cc →
        EnhancedRenderer.detectNumericOrder
          (EnhancedRenderer.categoriesOf (firstRow :: rest) cc) = false) →
      (rowKeys firstRow).find? EnhancedRenderer.isTextName = some tc →
      EnhancedRenderer.detectOptimalSort (firstRow :: rest) = ⟨tc, Dir.asc⟩) ∧
    (∀ (firstRow : Row) (rest : List Row) (vc : String),
      (rowKeys firstRow).find? EnhancedRenderer.isBandName = none →
      (rowKeys firstRow).find? EnhancedRenderer.isGradeName = none →
      (∀ cc : String, (rowKeys firstRow).find? EnhancedRenderer.isCategoryName = some cc →
        EnhancedRenderer.detectNumericOrder
          (EnhancedRenderer.categoriesOf (firstRow :: rest) cc) = false) →
      (rowKeys firstRow).find? EnhancedRenderer.isTextName = none →
      EnhancedRenderer.findValueColumn (rowKeys firstRow) firstRow = some vc →
      EnhancedRenderer.detectOptimalSort (firstRow :: rest) = ⟨vc, Dir.desc⟩) ∧
    (∀ (firstRow : Row) (rest : List Row),
      (rowKeys firstRow).find? EnhancedRenderer.isBandName = none →
      (rowKeys firstRow).find? EnhancedRenderer.isGradeName = none →
      (∀ cc : String, (rowKeys firstRow).find? EnhancedRenderer.isCategoryName = some cc →
        EnhancedRenderer.detectNumericOrder
          (EnhancedRenderer.categoriesOf (firstRow :: rest) cc) = false) →
      (rowKeys firstRow).find? EnhancedRenderer.isTextName = none →
      EnhancedRenderer.findValueColumn (rowKeys firstRow) firstRow = none →
      EnhancedRenderer.detectOptimalSort (firstRow :: rest) =
        ⟨(rowKeys firstRow).headD "", Dir.asc⟩) ∧
    (∀ (col : String) (aV bV : Option JVal) (na nb : Nat),
      hasSub (lowerS col) "band" = true →
      EnhancedRenderer.extractNumber (EnhancedRenderer.cellStr aV) = some na →
      EnhancedRenderer.extractNumber (EnhancedRenderer.cellStr bV) = some nb →
      EnhancedRenderer.strCompareCells col aV bV = (na : Int) - (nb : Int)) ∧
    (EnhancedRenderer.sortTableData
        [[("band", JVal.str "Band 10")], [("band", JVal.str "Band 2")]]
        "band" Dir.asc =
      [[("band", JVal.str "Band 2")], [("band", JVal.str "Band 10")]] ∧
     EnhancedRenderer.detectOptimalSort bandTableRows =
       ⟨"band", Dir.asc⟩ ∧
     EnhancedRenderer.sortTableData bandTableRows "band" Dir.asc =
       [[("band", JVal.str "Band 1"), ("count", JVal.num 5)],
        [("band", JVal.str "Band 2"), ("count", JVal.num 7)],
        [("band", JVal.str "Band 3"), ("count", JVal.num 10)]] ∧
     EnhancedRenderer.computeTableTotal bandTable = some (JVal.num 22) ∧
     EnhancedRenderer.displayTotal
       (EnhancedRenderer.computeTableTotal bandTable) = "22") := by
  refine ⟨?_, ?_, ?_, ?_, ?_, ?_, ?_, ?_⟩
  · intro firstRow rest bc hb
    simp [EnhancedRenderer.detectOptimalSort, hb]
  · intro firstRow rest gc hb hg
    simp [EnhancedRenderer.detectOptimalSort, hb, hg]
  · intro firstRow rest cc hb hg hc hnum
    simp [EnhancedRenderer.detectOptimalSort, hb, hg, hc, hnum]
  · intro firstRow rest tc hb hg hc ht
    rcases hfind : (rowKeys firstRow).find? EnhancedRenderer.isCategoryName with _ | cc
    · simp [EnhancedRenderer.detectOptimalSort, hb, hg, hfind, ht]
    · simp [EnhancedRenderer.detectOptimalSort, hb, hg, hfind, hc cc hfind, ht]
  · intro firstRow rest vc hb hg hc ht hv
    rcases hfind : (rowKeys firstRow).find? EnhancedRenderer.isCategoryName with _ | cc
    · simp [EnhancedRenderer.detectOptimalSort, hb, hg, hfind, ht, hv]
    · simp [EnhancedRenderer.detectOptimalSort, hb, hg, hfind, hc cc hfind, ht, hv]
  · intro firstRow rest hb hg hc ht hv
    rcases hfind : (rowKeys firstRow).find? EnhancedRenderer.isCategoryName with _ | cc
    · simp [EnhancedRenderer.detectOptimalSort, hb, hg, hfind, ht, hv]
    · simp [EnhancedRenderer.detectOptimalSort, hb, hg, hfind, hc cc hfind, ht, hv]
  · intro col aV bV na nb hband h1 h2
    unfold EnhancedRenderer.strCompareCells
    rw [if_pos (by simp [hband]), h1, h2]
  · refine ⟨by decide, by decide, by decide, by decide, by decide⟩

/-- Witness for C4: the priority-1 conjunct applied to the Scenario A rows,
and the band numeric-comparison conjunct applied to `Band 10` / `Band 2`. -/
theorem c4_default_sort_inference_witness :
    EnhancedRenderer.detectOptimalSort bandTableRows = ⟨"band", Dir.asc⟩ ∧
    EnhancedRenderer.strCompareCells "band" (some (JVal.str "Band 10"))
      (some (JVal.str "Band 2")) = (10 : Int) - 2 := by
  constructor
  · exact c4_default_sort_inference.1
      [("band", JVal.str "Band 3"), ("count", JVal.num 10)]
      [[("band", JVal.str "Band 1"), ("count", JVal.num 5)],
       [("band", JVal.str "Band 2"), ("count", JVal.num 7)]]
      "band" (by decide)
  · exact c4_default_sort_inference.2.2.2.2.2.2.1 "band"
      (some (JVal.str "Band 10")) (some (JVal.str "Band 2")) 10 2
      (by decide) (by decide) (by decide)

/-! ### C5: total computation -/

/-- The mathematical sum of a (numeric) value column over all rows. -/
def columnSum (rows : List Row) (valueColumn : String) : Int :=
  (rows.map fun row =>
    match rowGet row valueColumn with
    | some (JVal.num n) => n
    | _ => 0).sum

theorem sumValueColumn_numeric_aux (vc : String) :
    ∀ (rows : List Row) (acc : Int),
      (∀ row ∈ rows, ∃ n : Int, rowGet row vc = some (JVal.num n)) →
      List.foldl (fun sum row => jadd sum (jsOr (rowGet row vc) (JVal.num 0)))
        (JVal.num acc) rows = JVal.num (acc + columnSum rows vc)
  | [], acc, _ => by simp [columnSum]
  | r :: t, acc, h => by
    obtain ⟨n, hn⟩ := h r (List.mem_cons_self r t)
    have hcell : jsOr (rowGet r vc) (JVal.num 0) = JVal.num n := by
      rw [hn]
      by_cases hz : n = 0
      · simp [jsOr, JVal.truthy, hz]
      · simp [jsOr, JVal.truthy, hz]
    have ht := sumValueColumn_numeric_aux vc t (acc + n)
      (fun row hr => h row (List.mem_cons_of_mem _ hr))
    simp only [List.foldl_cons, hcell]
    have hstep : jadd (JVal.num acc) (JVal.num n) = JVal.num (acc + n) := rfl
    rw [hstep, ht]
    simp only [columnSum, List.map_cons, List.sum_cons, hn]
    congr 1
    ring

theorem sumValueColumn_numeric (rows : List Row) (vc : String)
    (h : ∀ row ∈ rows, ∃ n : Int, rowGet row vc = some (JVal.num n)) :
    EnhancedRenderer.sumValueColumn rows vc = JVal.num (columnSum rows vc) := by
  simpa using sumValueColumn_numeric_aux vc rows 0 h

/-- The concrete table whose only count is 0. -/
def zeroTable : DataObj :=
  { columns := some ["category", "count"]
    rows := some [[("category", JVal.str "A"), ("count", JVal.num 0)]] }

/-- C5 (counterexample): on a table whose detected value column sums to 0,
the renderer computes the total 0 correctly but *displays* it as `N/A`
(`formatNumber(total || 'N/A')` treats 0 as falsy), identically to the
no-value-column display — the display does not distinguish `N/A` from `0`. -/
theorem c5_total_computation_counterexample :
    EnhancedRenderer.findValueColumn
      (rowKeys [("category", JVal.str "A"), ("count", JVal.num 0)])
      [("category", JVal.str "A"), ("count", JVal.num 0)] = some "count" ∧
    EnhancedRenderer.computeTableTotal zeroTable = some (JVal.num 0) ∧
    EnhancedRenderer.displayTotal (EnhancedRenderer.computeTableTotal zeroTable) =
      "N/A" ∧
    EnhancedRenderer.displayTotal none = "N/A" := by
  refine ⟨by decide, by decide, by decide, by decide⟩

/-- C5 (amended): whenever the provided total is unset and a numeric value
column is detected, the computed total equals the sum of that column over
all rows; when no numeric value column is detected the total stays unset
and is displayed as the explicit `"N/A"` marker (never `"0"`); however, the
display maps a *computed total of 0* to `"N/A"` as well, so `N/A` and `0`
are not distinguished on screen. -/
theorem c5_total_computation_amended :
    (∀ (d : DataObj) (firstRow : Row) (rest : List Row) (vc : String),
      d.rows = some (firstRow :: rest) →
      EnhancedRenderer.totalUnset d.total = true →
      EnhancedRenderer.findValueColumn (rowKeys firstRow) firstRow = some vc →
      (∀ row ∈ firstRow :: rest, ∃ n : Int, rowGet row vc = some (JVal.num n)) →
      EnhancedRenderer.computeTableTotal d =
        some (JVal.num (columnSum (firstRow :: rest) vc))) ∧
    (∀ (d : DataObj) (firstRow : Row) (rest : List Row),
      d.rows = some (firstRow :: rest) →
      EnhancedRenderer.totalUnset d.total = true →
      EnhancedRenderer.findValueColumn (rowKeys firstRow) firstRow = none →
      EnhancedRenderer.displayTotal (EnhancedRenderer.computeTableTotal d) =
          "N/A" ∧
        ("N/A" : String) ≠ "0") ∧
    (EnhancedRenderer.displayTotal (some (JVal.num 0)) = "N/A" ∧
      EnhancedRenderer.displayTotal none = "N/A") := by
  refine ⟨?_, ?_, by decide, by decide⟩
  · intro d firstRow rest vc hrows hunset hvc hnum
    simp only [EnhancedRenderer.computeTableTotal, hrows, hunset, if_true,
      Option.getD_some, hvc]
    rw [sumValueColumn_numeric _ _ hnum]
  · intro d firstRow rest hrows hunset hvc
    refine ⟨?_, by decide⟩
    simp only [EnhancedRenderer.computeTableTotal, hrows, hunset, if_true,
      Option.getD_some, hvc]
    have : d.total = none ∨ d.total = some JVal.null ∨
        d.total = some (JVal.str "N/A") := by
      unfold EnhancedRenderer.totalUnset at hunset
      rcases h : d.total with _ | v
      · exact Or.inl rfl
      · rw [h] at hunset
        cases v with
        | num n => simp at hunset
        | str s =>
            simp at hunset
            simp [hunset]
        | null => simp
    rcases this with h | h | h <;> rw [h] <;> decide

/-- Witness for the amended C5 at the Scenario A band table (sum 22) and a
value-column-free table. -/
theorem c5_total_computation_amended_witness :
    EnhancedRenderer.computeTableTotal bandTable =
      some (JVal.num (columnSum bandTableRows "count")) ∧
    EnhancedRenderer.displayTotal
      (EnhancedRenderer.computeTableTotal
        { columns := some ["category"],
          rows := some [[("category", JVal.str "A")]] }) = "N/A" := by
  constructor
  · exact c5_total_computation_amended.1 bandTable
      [("band", JVal.str "Band 3"), ("count", JVal.num 10)]
      [[("band", JVal.str "Band 1"), ("count", JVal.num 5)],
       [("band", JVal.str "Band 2"), ("count", JVal.num 7)]]
      "count" (by decide) (by decide) (by decide)
      (by
        intro row hr
        fin_cases hr
        · exact ⟨10, by decide⟩
        · exact ⟨5, by decide⟩
        · exact ⟨7, by decide⟩)
  · exact (c5_total_computation_amended.2.1
      { columns := some ["category"], rows := some [[("category", JVal.str "A")]] }
      [("category", JVal.str "A")] [] (by decide) (by decide) (by decide)).1

/-! ### C6: analytics extraction shapes -/

/-- A response carrying *both* a nested `data.{columns,rows}` table and a
different direct top-level `{columns,rows}` table. -/
def nestedAndDirect : Response :=
  { data := some { columns := some ["a", "b"]
                   rows := some [[("a", JVal.num 1), ("b", JVal.num 2)]] }
    columns := some ["c", "d"]
    rows := some [[("c", JVal.num 3), ("d", JVal.num 4)]] }

/-- A response whose nested table has an empty row list. -/
def emptyNested : Response :=
  { data := some { columns := some ["a", "b"], rows := some [] } }

/-- C6 (counterexample): `extractAnalyticsData` tries the *nested*
`data.{columns,rows}` shape before the direct top-level shape (the claim
states direct-first), and performs no `rows.length > 0` validation — an
empty nested table is returned rather than `null`. -/
theorem c6_extract_shape_order_counterexample :
    CoreApp.extractAnalyticsData (some nestedAndDirect) =
      some { columns := some ["a", "b"]
             rows := some [[("a", JVal.num 1), ("b", JVal.num 2)]] } ∧
    CoreApp.extractAnalyticsData (some nestedAndDirect) ≠
      some { columns := some ["c", "d"]
             rows := some [[("c", JVal.num 3), ("d", JVal.num 4)]] } ∧
    CoreApp.extractAnalyticsData (some emptyNested) =
      some { columns := some ["a", "b"], rows := some [] } := by
  refine ⟨by decide, by decide, by decide⟩

/-- C6 (amended): `extractAnalyticsData` attempts, in order, the nested
`data.{columns,rows}` shape, the direct top-level `{columns,rows}` shape and
the legacy `analytics_data` field, returning the first whose fields are
present, with no row-count or key-count validation; it returns `none`
(never throws — it is a total function) when nothing matches.  The
rows-without-columns inference (columns from the first row's key set,
requiring a non-empty row list and at least two first-row keys, tried
*after* the explicit shape) lives in the visualization module's
`cacheHRAnalyticsData`; and an analytics turn whose wrapped payload matches
none of the dashboard heuristics falls back to a plain text bubble. -/
theorem c6_extract_shapes_amended :
    (∀ (r : Response) (d : DataObj),
      r.data = some d → d.columns.isSome = true → d.rows.isSome = true →
      CoreApp.extractAnalyticsData (some r) =
        some { columns := d.columns, rows := d.rows }) ∧
    (∀ r : Response,
      (∀ d : DataObj, r.data = some d →
        (d.columns.isSome && d.rows.isSome) = false) →
      r.columns.isSome = true → r.rows.isSome = true →
      CoreApp.extractAnalyticsData (some r) =
        some { columns := r.columns, rows := r.rows }) ∧
    (∀ r : Response,
      (∀ d : DataObj, r.data = some d →
        (d.columns.isSome && d.rows.isSome) = false) →
      (r.columns.isSome && r.rows.isSome) = false →
      CoreApp.extractAnalyticsData (some r) = r.analytics_data) ∧
    (∀ d : DataObj,
      (d.columns.isSome && d.rows.isSome) = true →
      VisualizationModule.cacheHRAnalyticsData (some d) =
        some { columns := d.columns.getD [], rows := d.rows.getD []
               categoryKey := (d.columns.getD []).headD ""
               valueKey := ((d.columns.getD []).drop 1).headD ""
               dataType := "structured", source := "backend_explicit" }) ∧
    (∀ (ad : Option DataObj) (p : VisualizationModule.ProcessedData),
      VisualizationModule.cacheHRAnalyticsData ad = some p →
      (∃ d : DataObj, ad = some d ∧ (d.columns.isSome && d.rows.isSome) = true) ∨
      (∃ (d : DataObj) (firstRow : Row) (rest : List Row),
        ad = some d ∧ d.rows = some (firstRow :: rest) ∧
        (rowKeys firstRow).length ≥ 2 ∧ p.columns = rowKeys firstRow ∧
        p.dataType = "inferred")) ∧
    (∀ (r : Response),
      BackendModule.errTruthy r.error = false → r.authorized ≠ some false →
      CoreApp.isHRAnalyticsResponse (some (BackendModule.mkWrapped r)) = false →
      (BackendModule.handleBackendResponse false r).msg =
        BackendModule.MsgRender.bubble) := by
  refine ⟨?_, ?_, ?_, ?_, ?_, ?_⟩
  · intro r d hd hc hr
    simp [CoreApp.extractAnalyticsData, hd, hc, hr]
  · intro r hnested hc hr
    rcases hd : r.data with _ | d
    · simp [CoreApp.extractAnalyticsData, hd, hc, hr]
    · have hf := hnested d hd
      simp only [Bool.and_eq_false_iff] at hf
      rcases hf with hf | hf <;>
        simp [CoreApp.extractAnalyticsData, hd, hc, hr, hf]
  · intro r hnested hdirect
    simp only [Bool.and_eq_false_iff] at hdirect
    rcases hd : r.data with _ | d
    · rcases hdirect with hf | hf <;>
        simp [CoreApp.extractAnalyticsData, hd, hf]
    · have hfn := hnested d hd
      simp only [Bool.and_eq_false_iff] at hfn
      rcases hfn with hfn | hfn <;> rcases hdirect with hf | hf <;>
        simp [CoreApp.extractAnalyticsData, hd, hfn, hf]
  · intro d h
    simp only [Bool.and_eq_true] at h
    simp [VisualizationModule.cacheHRAnalyticsData, h.1, h.2]
  · intro ad p hp
    rcases had : ad with _ | d
    · rw [had] at hp
      simp [VisualizationModule.cacheHRAnalyticsData] at hp
    · rw [had] at hp
      unfold VisualizationModule.cacheHRAnalyticsData at hp
      dsimp only [] at hp
      by_cases hexp : (d.columns.isSome && d.rows.isSome) = true
      · exact Or.inl ⟨d, rfl, hexp⟩
      · right
        rw [if_neg hexp] at hp
        rcases hr : d.rows with _ | rows
        · rw [hr] at hp
          simp at hp
        · rw [hr] at hp
          cases rows with
          | nil => simp at hp
          | cons firstRow rest =>
            dsimp only [] at hp
            by_cases hk : (rowKeys firstRow).length ≥ 2
            · rw [if_pos hk] at hp
              refine ⟨d, firstRow, rest, rfl, hr, hk, ?_, ?_⟩
              · simp only [Option.some.injEq] at hp
                rw [← hp]
              · simp only [Option.some.injEq] at hp
                rw [← hp]
            · rw [if_neg hk] at hp
              simp at hp
  · intro r he ha hwrap
    unfold BackendModule.handleBackendResponse
    simp only [he, Bool.false_eq_true, if_false, if_neg ha]
    by_cases hm : (r.message_type = some "analytics_result" ∧ r.data.isSome = true)
    · simp only [hm.1, hm.2]
      simp [BackendModule.addMessageModel, hwrap]
    · rcases hd : r.data with _ | d
      · simp [hd, BackendModule.addMessageModel, CoreApp.isHRAnalyticsResponse]
      · rcases hmt : r.message_type with _ | mt
        · simp [hmt, hd, BackendModule.addMessageModel, CoreApp.isHRAnalyticsResponse]
        · by_cases hq : mt = "analytics_result"
          · exfalso
            exact hm ⟨by rw [hmt, hq], by rw [hd]; rfl⟩
          · simp [hmt, hd, hq, BackendModule.addMessageModel,
              CoreApp.isHRAnalyticsResponse]

/-- Witness for the amended C6: nested shape wins on the combined response,
and the strategy union is exercised on the nested-and-direct data object. -/
theorem c6_extract_shapes_amended_witness :
    CoreApp.extractAnalyticsData (some nestedAndDirect) =
      some { columns := some ["a", "b"]
             rows := some [[("a", JVal.num 1), ("b", JVal.num 2)]] } ∧
    CoreApp.extractAnalyticsData
      (some { analytics_data := some (catTable 2) }) = some (catTable 2) := by
  constructor
  · exact c6_extract_shapes_amended.1 nestedAndDirect
      { columns := some ["a", "b"]
        rows := some [[("a", JVal.num 1), ("b", JVal.num 2)]] }
      (by decide) (by decide) (by decide)
  · exact c6_extract_shapes_amended.2.2.1
      { analytics_data := some (catTable 2) }
      (by intro d hd; simp at hd) (by decide)

/-! ### C1: canonical-contract precedence -/

theorem handle_text_branch (hook : Bool) (r : Response)
    (he : BackendModule.errTruthy r.error = false)
    (ha : r.authorized ≠ some false)
    (hm : r.message_type ≠ some "analytics_result") :
    BackendModule.handleBackendResponse hook r =
      { kind := BackendModule.Kind.text
        msgText := r.answer.getD ""
        msg := (BackendModule.addMessageModel hook (r.answer.getD "") none).1
        offer := false
        autoChart := (BackendModule.addMessageModel hook (r.answer.getD "") none).2
        legacyViz := jsTruthy r.visualization } := by
  unfold BackendModule.handleBackendResponse
  simp only [he, Bool.false_eq_true, if_false, if_neg ha]
  simp [hm]

theorem addMessage_none_is_bubble (hook : Bool) (text : String) :
    (BackendModule.addMessageModel hook text none).1 =
      BackendModule.MsgRender.bubble := by
  cases hook <;> simp [BackendModule.addMessageModel, CoreApp.isHRAnalyticsResponse]

/-- C1: canonical-contract precedence — every response whose `message_type`
differs from `"analytics_result"` (and that passes the earlier
error/authorization checks of the handler) is classified `text` and its
message is rendered as a plain bubble, regardless of every other field it
carries (`data.rows`, `analysis`, `narrative`, `highest`/`lowest`, top-level
`columns`/`rows` …): the universal handler gates on `message_type` alone and
passes no payload to `addMessage`, so the legacy shape heuristics of
`isHRAnalyticsResponse` can never run ahead of the canonical check. -/
theorem c1_canonical_contract_precedence (hook : Bool) (r : Response)
    (he : BackendModule.errTruthy r.error = false)
    (ha : r.authorized ≠ some false)
    (hm : r.message_type ≠ some "analytics_result") :
    BackendModule.classify r = BackendModule.Kind.text ∧
    (BackendModule.handleBackendResponse hook r).kind = BackendModule.Kind.text ∧
    (BackendModule.handleBackendResponse hook r).msg =
      BackendModule.MsgRender.bubble := by
  refine ⟨?_, ?_, ?_⟩
  · unfold BackendModule.classify
    simp [he, ha, hm]
  · rw [handle_text_branch hook r he ha hm]
  · rw [handle_text_branch hook r he ha hm]
    exact addMessage_none_is_bubble hook (r.answer.getD "")

/-- A response loaded with every legacy analytics marker but a
non-canonical `message_type`. -/
def legacyLoadedResponse : Response :=
  { answer := some "ok"
    message_type := some "hr_analytics"
    data := some { columns := some ["a", "b"]
                   rows := some [[("a", JVal.num 1), ("b", JVal.num 2)]] }
    narrative := some { title := some "T", summary := some "S" }
    analysis := some { highest := some { category := JVal.str "A"
                                         value := JVal.num 1
                                         percent := JVal.num 50 } }
    columns := some ["a", "b"]
    rows := some [[("a", JVal.num 1), ("b", JVal.num 2)]]
    type := some "hr_analytics"
    highest := some (JVal.num 5) }

/-- Witness for C1: the legacy-marker-loaded response would satisfy the
legacy heuristics (`isHRAnalyticsResponse` is true on it), yet the handler
classifies it as text and renders a plain bubble. -/
theorem c1_canonical_contract_precedence_witness :
    CoreApp.isHRAnalyticsResponse (some legacyLoadedResponse) = true ∧
    BackendModule.classify legacyLoadedResponse = BackendModule.Kind.text ∧
    (BackendModule.handleBackendResponse false legacyLoadedResponse).kind =
      BackendModule.Kind.text ∧
    (BackendModule.handleBackendResponse false legacyLoadedResponse).msg =
      BackendModule.MsgRender.bubble := by
  have h := c1_canonical_contract_precedence false legacyLoadedResponse
    (by decide) (by decide) (by decide)
  exact ⟨by decide, h.1, h.2.1, h.2.2⟩

/-! ### C2: chart offer gating and the text-pattern auto-chart -/

theorem offer_requires_flag_and_ids (hook : Bool) (r : Response)
    (h : (BackendModule.handleBackendResponse hook r).offer = true) :
    r.visualization_available = some true ∧
    strTruthy r.conversation_id = true ∧ strTruthy r.turn_id = true ∧
    r.message_type = some "analytics_result" ∧ r.data.isSome = true := by
  unfold BackendModule.handleBackendResponse at h
  by_cases he : BackendModule.errTruthy r.error = true
  · simp [he] at h
  · simp only [Bool.not_eq_true] at he
    simp only [he, Bool.false_eq_true, if_false] at h
    by_cases ha : r.authorized = some false
    · rw [if_pos ha] at h
      simp at h
    · rw [if_neg ha] at h
      by_cases hm : (decide (r.message_type = some "analytics_result") &&
          r.data.isSome) = true
      · simp only [Bool.and_eq_true, decide_eq_true_eq] at hm
        simp only [hm.1, hm.2, Option.isSome_some] at h
        rw [if_pos (by simp)] at h
        simp only [Bool.and_eq_true, decide_eq_true_eq] at h
        refine ⟨?_, ?_, ?_, hm.1, hm.2⟩ <;> tauto
      · simp only [Bool.not_eq_true] at hm
        simp only [Bool.and_eq_false_iff] at hm
        rcases hm with hm | hm <;> simp [hm] at h

theorem trigger_is_text_driven (text : String) (d : List (String × Nat))
    (h : SimpleViz.triggerVisualizationFromResponse text = some d) :
    SimpleViz.hasHRData text = true ∧ d ≠ [] := by
  unfold SimpleViz.triggerVisualizationFromResponse at h
  by_cases hc : (SimpleViz.hasHRData text &&
      decide ((SimpleViz.extractHRDataFromText text).length > 0)) = true
  · rw [if_pos hc] at h
    simp only [Bool.and_eq_true, decide_eq_true_eq] at hc
    refine ⟨hc.1, ?_⟩
    have hd : d = SimpleViz.extractHRDataFromText text :=
      (Option.some.injEq _ _ ▸ h).symm
    rw [hd]
    intro hnil
    rw [hnil] at hc
    simp at hc
  · rw [if_neg hc] at h
    cases h

/-- Scenario B: analytics result with a chart-eligible table, narrative and
analysis, `visualization_available:false`, and an answer text free of HR
data patterns. -/
def scenarioBResponse : Response :=
  { message_type := some "analytics_result"
    data := some { columns := some ["dept", "count"]
                   rows := some [[("dept", JVal.str "HR"), ("count", JVal.num 4)],
                                 [("dept", JVal.str "IT"), ("count", JVal.num 6)]] }
    narrative := some { title := some "Distribusi", summary := some "Ringkasan" }
    analysis := some { highest := some { category := JVal.str "IT"
                                         value := JVal.num 6
                                         percent := JVal.num 60 } }
    visualization_available := some false
    conversation_id := some "c1"
    turn_id := some "t1"
    answer := some "Berikut distribusi per departemen." }

/-- The same turn, except the answer text mentions `Band 3: 315`. -/
def scenarioBBandAnswer : Response :=
  { scenarioBResponse with answer := some "Band 3: 315" }

/-- C2 (counterexample): with the simple-visualization hook installed (as
`simple_visualization_fixed.js` wires it), a response with
`visualization_available:false` produces no chart offer, but a pie chart is
still *auto-rendered* from the bot text `"Band 3: 315"` — a chart without
the explicit backend flag, refuting "a chart is never auto-rendered without
this explicit flag". -/
theorem c2_chart_offer_gating_counterexample :
    scenarioBBandAnswer.visualization_available = some false ∧
    (BackendModule.handleBackendResponse true scenarioBBandAnswer).offer = false ∧
    (BackendModule.handleBackendResponse true scenarioBBandAnswer).autoChart =
      some [("Band 3", 315)] := by
  refine ⟨by decide, by decide, by decide⟩

/-- C2 (amended): the chart *offer* UI is produced only when
`visualization_available === true` and both ids are present on an analytics
turn; Scenario B (flag `false`, clean answer text, no hook) renders the
dashboard with narrative, facts and table but no chart offer and no chart;
however the simple-visualization hook, when installed, auto-renders a pie
chart from the bot *text* whenever it matches an HR data pattern,
independently of the `visualization_available` flag. -/
theorem c2_chart_offer_gating_amended :
    (∀ (hook : Bool) (r : Response),
      (BackendModule.handleBackendResponse hook r).offer = true →
      r.visualization_available = some true ∧
        strTruthy r.conversation_id = true ∧ strTruthy r.turn_id = true ∧
        r.message_type = some "analytics_result" ∧ r.data.isSome = true) ∧
    ((BackendModule.handleBackendResponse false scenarioBResponse).kind =
        BackendModule.Kind.analytics ∧
      (BackendModule.handleBackendResponse false scenarioBResponse).msg =
        BackendModule.MsgRender.dashboard ∧
      EnhancedRenderer.render (BackendModule.mkWrapped scenarioBResponse) =
        { extractedNarrativeCard := false, extractedAnalysisCard := false
          insightCard := true, factsCard := true, tableCard := true } ∧
      (BackendModule.handleBackendResponse false scenarioBResponse).offer = false ∧
      (BackendModule.handleBackendResponse false scenarioBResponse).autoChart =
        none) ∧
    (∀ (text : String) (d : List (String × Nat)),
      SimpleViz.triggerVisualizationFromResponse text = some d →
      SimpleViz.hasHRData text = true ∧ d ≠ []) := by
  refine ⟨offer_requires_flag_and_ids,
    ⟨by decide, by decide, by decide, by decide, by decide⟩,
    trigger_is_text_driven⟩

/-- The Scenario B turn with the explicit backend opt-in flag set. -/
def offeredResponse : Response :=
  { scenarioBResponse with visualization_available := some true }

/-- Witness for the amended C2: the offer produced on the opted-in turn
implies the flag and ids, and the hook trigger on `"Band 3: 315"` implies an
HR-pattern match with non-empty data. -/
theorem c2_chart_offer_gating_amended_witness :
    (offeredResponse.visualization_available = some true ∧
      strTruthy offeredResponse.conversation_id = true ∧
      strTruthy offeredResponse.turn_id = true ∧
      offeredResponse.message_type = some "analytics_result" ∧
      offeredResponse.data.isSome = true) ∧
    (SimpleViz.hasHRData "Band 3: 315" = true ∧
      ([("Band 3", 315)] : List (String × Nat)) ≠ []) := by
  constructor
  · exact c2_chart_offer_gating_amended.1 false offeredResponse (by decide)
  · exact c2_chart_offer_gating_amended.2.2 "Band 3: 315" [("Band 3", 315)]
      (by decide)

/-! ### C9: single outstanding request -/

/-- C9 (counterexample): a send attempt while a request is pending is *not*
a no-op when call mode is active — `askBackend` only returns early when
`isWaitingForResponse && !isCallModeActive`, so in call mode a second
request is issued concurrently. -/
theorem c9_single_outstanding_request_counterexample :
    (BackendModule.AppState.mk true true).isWaitingForResponse = true ∧
    (BackendModule.askBackend (BackendModule.AppState.mk true true)
      BackendModule.FetchResult.networkError).requestIssued = true := by
  refine ⟨by decide, by decide⟩

/-- C9 (amended): while a request is pending *and call mode is inactive*,
a new `askBackend` attempt is a no-op (rejected, not queued; call mode
bypasses the guard); user text sends (`sendMessage`) are rejected whenever
the waiting flag is set; whenever a request is actually issued, the
`finally` block clears the waiting flag for every outcome, permitting the
next send; and the 45-second abort produces the timeout-specific message,
distinct from the generic network-failure message. -/
theorem c9_single_outstanding_request_amended :
    (∀ (s : BackendModule.AppState) (res : BackendModule.FetchResult),
      s.isWaitingForResponse = true → s.isCallModeActive = false →
      BackendModule.askBackend s res =
        { state := s, requestIssued := false, messages := [] }) ∧
    (∀ (text : String) (s : BackendModule.AppState),
      s.isWaitingForResponse = true →
      BackendModule.sendMessageProceeds text s = false) ∧
    (∀ (s : BackendModule.AppState) (res : BackendModule.FetchResult),
      (BackendModule.askBackend s res).requestIssued = true →
      (BackendModule.askBackend s res).state.isWaitingForResponse = false) ∧
    (∀ (s : BackendModule.AppState) (res res' : BackendModule.FetchResult),
      (BackendModule.askBackend s res).requestIssued = true →
      s.isCallModeActive = false →
      (BackendModule.askBackend (BackendModule.askBackend s res).state
        res').requestIssued = true) ∧
    (∀ (s : BackendModule.AppState),
      (BackendModule.askBackend s BackendModule.FetchResult.timeout).requestIssued
          = true →
      (BackendModule.askBackend s BackendModule.FetchResult.timeout).messages =
        [BackendModule.timeoutMessage]) ∧
    BackendModule.timeoutMessage ≠ BackendModule.connectFailMessage := by
  refine ⟨?_, ?_, ?_, ?_, ?_, by decide⟩
  · intro s res hw hc
    unfold BackendModule.askBackend
    rw [if_pos (by simp [hw, hc])]
  · intro text s hw
    unfold BackendModule.sendMessageProceeds
    simp [hw]
  · intro s res h
    unfold BackendModule.askBackend at h ⊢
    by_cases hg : (s.isWaitingForResponse && !s.isCallModeActive) = true
    · rw [if_pos hg] at h
      simp at h
    · rw [if_neg hg] at h ⊢
      cases res <;> rfl
  · intro s res res' h hc
    unfold BackendModule.askBackend at h ⊢
    by_cases hg : (s.isWaitingForResponse && !s.isCallModeActive) = true
    · rw [if_pos hg] at h
      simp at h
    · rw [if_neg hg] at h ⊢
      cases res <;> cases res' <;> simp
  · intro s h
    unfold BackendModule.askBackend at h ⊢
    by_cases hg : (s.isWaitingForResponse && !s.isCallModeActive) = true
    · rw [if_pos hg] at h
      simp at h
    · rw [if_neg hg]

/-- Witness for the amended C9: pending + no call mode is a no-op; a
timed-out request clears the flag and emits the timeout message. -/
theorem c9_single_outstanding_request_amended_witness :
    BackendModule.askBackend (BackendModule.AppState.mk true false)
        BackendModule.FetchResult.networkError =
      { state := BackendModule.AppState.mk true false
        requestIssued := false, messages := [] } ∧
    (BackendModule.askBackend (BackendModule.AppState.mk false false)
      BackendModule.FetchResult.timeout).state.isWaitingForResponse = false ∧
    (BackendModule.askBackend (BackendModule.AppState.mk false false)
      BackendModule.FetchResult.timeout).messages =
      [BackendModule.timeoutMessage] := by
  refine ⟨c9_single_outstanding_request_amended.1
      (BackendModule.AppState.mk true false)
      BackendModule.FetchResult.networkError (by decide) (by decide),
    c9_single_outstanding_request_amended.2.2.1
      (BackendModule.AppState.mk false false)
      BackendModule.FetchResult.timeout (by decide),
    c9_single_outstanding_request_amended.2.2.2.2.1
      (BackendModule.AppState.mk false false) (by decide)⟩
